import Mathlib

/-!
Verification of the Amazon Q Developer 3P logging/stats scripts.

The repository consists of straight-line orchestration code over the AWS
SDK.  We embed it shallowly: every provider call is recorded in a trace,
and the provider behaviour is an environment of response functions; a
response is `Except String α` whose error is the provider error code
string (mirroring the error code field carried by the botocore
ClientError exception).  Console output is modelled as a log of entries tagged
info (ordinary `print`) or err (a `print` of an error report inside an
`except` clause).  An exception escaping a top-level method is recorded
in the `raised` field of a `Run`; since every method of these scripts
wraps its body in `try/except ClientError`, the embedding makes `raised`
none exactly where the source cannot raise.

Each environment supplies one response per provider call; list
pagination is modelled by the environment holding the successive pages
the paginator would yield.  CSV payloads are modelled at row level, as a
list of rows (each a list of column strings).
-/

/-- A log line: `info` for plain progress prints, `err` for error reports
printed inside an `except` clause. -/
inductive LogEntry
  | info (msg : String)
  | err (msg : String)
deriving DecidableEq

/-- Is this log entry an error report? -/
def LogEntry.isErr : LogEntry → Bool
  | .info _ => false
  | .err _ => true

/-- An object identity passed to `delete_objects`: a key, and a version
id when deleting a specific version or delete marker. -/
structure S3ObjectId where
  key : String
  versionId : Option String
deriving DecidableEq

/-- One statement of the bucket policy document of `create_s3_bucket`. -/
structure PolicyStatement where
  sid : String
  effect : String
  principalService : String
  actions : List String
  resources : List String
  conditionAclEquals : Option String
deriving DecidableEq

/-- One field selector of an advanced event selector. -/
structure FieldSelector where
  field : String
  equalsVals : List String
deriving DecidableEq

/-- One advanced event selector of `setup_cloudtrail`. -/
structure EventSelector where
  name : String
  fieldSelectors : List FieldSelector
deriving DecidableEq

/-- The provider calls the scripts can issue, with the arguments the
claims are about. -/
inductive AwsCall
  | listTargetsByRule (rule : String)
  | removeTargets (rule : String) (ids : List String)
  | deleteRule (name : String)
  | deleteFunction (name : String)
  | deleteRolePolicy (role : String) (policy : String)
  | deleteRole (name : String)
  | deleteTrail (name : String)
  | headBucket (bucket : String)
  | listObjectsV2 (bucket : String)
  | deleteObjects (bucket : String) (objs : List S3ObjectId)
  | listObjectVersions (bucket : String)
  | deleteBucket (bucket : String)
  | createBucket (bucket : String) (locationConstraint : Option String)
  | putBucketPolicy (bucket : String) (policy : List PolicyStatement)
  | describeTrails
  | createTrail (name : String) (bucket : String) (keyPrefix : String)
      (isMultiRegionTrail : Bool) (enableLogFileValidation : Bool)
  | putEventSelectors (trailName : String) (selectors : List EventSelector)
  | startLogging (name : String)
  | listInstances
  | listUsers (storeId : String) (nextToken : Option String)
  | putObject (bucket : String) (key : String) (bodyRows : List (List String))
  | uploadFile (bucket : String) (key : String)
  | manualInstructionsPause
deriving DecidableEq

/-- The result of running one Python method: the provider calls it made,
what it printed, its return value, and the error code of an exception it
let escape (none for the methods here, which catch `ClientError`). -/
structure Run (α : Type) where
  trace : List AwsCall
  logs : List LogEntry
  ret : α
  raised : Option String
deriving DecidableEq

/-! ## Cleanup script (`cleanup_q_developer_3p_metrics.py`) -/

/-- A page yielded by the `list_object_versions` paginator: versions and
delete markers, each a key with its version id. -/
structure VersionPage where
  versions : List (String × String)
  deleteMarkers : List (String × String)
deriving DecidableEq

/-- Provider responses seen by the cleanup script. -/
structure CleanupEnv where
  listTargetsResp : String → Except String (List String)
  removeTargetsResp : String → List String → Except String Unit
  deleteRuleResp : String → Except String Unit
  deleteFunctionResp : String → Except String Unit
  deleteRolePolicyResp : String → String → Except String Unit
  deleteRoleResp : String → Except String Unit
  deleteTrailResp : String → Except String Unit
  headBucketResp : String → Except String Unit
  objectPages : List (List String)
  deleteObjectsResp : List S3ObjectId → Except String Unit
  listVersionsResp : Except String (List VersionPage)
  deleteBucketResp : String → Except String Unit

/-- The EventBridge rules `delete_eventbridge_rules` iterates over. -/
def rulesToDelete : List String :=
  ["QDeveloper3PSetupSchedule", "IAMIdentityCenterUserExtractSchedule"]

/-- The Lambda functions `delete_lambda_functions` iterates over. -/
def functionsToDelete : List String :=
  ["QDeveloper3PSetup", "IAMIdentityCenterUserExtract"]

/-- The role and inline policy names `delete_iam_roles_and_policies`
iterates over. -/
def rolesToDelete : List (String × String) :=
  [("lambda-q-developer-role", "QDeveloper3PPermissions"),
   ("lambda-iam-identity-center-extract-role", "IAMIdentityCenterExtractPermissions")]

/-- The trail name `delete_cloudtrail` deletes:
`"q-developer-3p-trail-" + bucket_name`. -/
def cleanupTrailName (bucket : String) : String :=
  "q-developer-3p-trail-" ++ bucket

/-- The `try` block of the per-rule body of `delete_eventbridge_rules`:
list the targets of the rule, remove them when there are any, then
delete the rule; a `ClientError` code propagates out of the block. -/
def deleteRuleBody (env : CleanupEnv) (ruleName : String) :
    List AwsCall × List LogEntry × Except String Unit :=
  match env.listTargetsResp ruleName with
  | .error c => ([AwsCall.listTargetsByRule ruleName], [], .error c)
  | .ok targetIds =>
    let step1 : List AwsCall × List LogEntry × Except String Unit :=
      if targetIds.isEmpty then ([], [], .ok ())
      else
        match env.removeTargetsResp ruleName targetIds with
        | .error c => ([AwsCall.removeTargets ruleName targetIds], [], .error c)
        | .ok _ =>
          ([AwsCall.removeTargets ruleName targetIds],
           [LogEntry.info ("Removed targets from EventBridge rule: " ++ ruleName)], .ok ())
    match step1 with
    | (tr, lg, .error c) => (AwsCall.listTargetsByRule ruleName :: tr, lg, .error c)
    | (tr, lg, .ok _) =>
      match env.deleteRuleResp ruleName with
      | .error c =>
        (AwsCall.listTargetsByRule ruleName :: tr ++ [AwsCall.deleteRule ruleName], lg, .error c)
      | .ok _ =>
        (AwsCall.listTargetsByRule ruleName :: tr ++ [AwsCall.deleteRule ruleName],
         lg ++ [LogEntry.info ("Deleted EventBridge rule: " ++ ruleName)], .ok ())

/-- The per-rule body together with its `except ClientError` clause:
`ResourceNotFoundException` is logged informationally, any other code as
an error; nothing is re-raised. -/
def deleteRuleHandled (env : CleanupEnv) (ruleName : String) : Run Unit :=
  match deleteRuleBody env ruleName with
  | (tr, lg, .ok _) => { trace := tr, logs := lg, ret := (), raised := none }
  | (tr, lg, .error c) =>
    if c = "ResourceNotFoundException" then
      { trace := tr
        logs := lg ++ [LogEntry.info ("EventBridge rule " ++ ruleName ++ " not found (already deleted)")]
        ret := (), raised := none }
    else
      { trace := tr
        logs := lg ++ [LogEntry.err ("Error deleting EventBridge rule " ++ ruleName)]
        ret := (), raised := none }

/-- `delete_eventbridge_rules`: process each scheduled rule in turn. -/
def delete_eventbridge_rules (env : CleanupEnv) : Run Unit :=
  { trace := (rulesToDelete.map fun r => (deleteRuleHandled env r).trace).flatten
    logs := (rulesToDelete.map fun r => (deleteRuleHandled env r).logs).flatten
    ret := (), raised := none }

/-- One iteration of `delete_lambda_functions`: a single
`delete_function` call under `try/except ClientError`. -/
def deleteFunctionHandled (env : CleanupEnv) (fnName : String) : Run Unit :=
  match env.deleteFunctionResp fnName with
  | .ok _ =>
    { trace := [AwsCall.deleteFunction fnName]
      logs := [LogEntry.info ("Deleted Lambda function: " ++ fnName)]
      ret := (), raised := none }
  | .error c =>
    if c = "ResourceNotFoundException" then
      { trace := [AwsCall.deleteFunction fnName]
        logs := [LogEntry.info ("Lambda function " ++ fnName ++ " not found (already deleted)")]
        ret := (), raised := none }
    else
      { trace := [AwsCall.deleteFunction fnName]
        logs := [LogEntry.err ("Error deleting Lambda function " ++ fnName)]
        ret := (), raised := none }

/-- `delete_lambda_functions`: both fixed function names in turn. -/
def delete_lambda_functions (env : CleanupEnv) : Run Unit :=
  { trace := (functionsToDelete.map fun f => (deleteFunctionHandled env f).trace).flatten
    logs := (functionsToDelete.map fun f => (deleteFunctionHandled env f).logs).flatten
    ret := (), raised := none }

/-- One iteration of `delete_iam_roles_and_policies`: delete the inline
policy first (its own `except` clause is silent on `NoSuchEntity` and
only logs other codes), then delete the role under the outer
`except ClientError`. -/
def deleteRoleHandled (env : CleanupEnv) (roleName policyName : String) : Run Unit :=
  let polLogs : List LogEntry :=
    match env.deleteRolePolicyResp roleName policyName with
    | .ok _ => [LogEntry.info ("Deleted inline policy " ++ policyName ++ " from role " ++ roleName)]
    | .error c =>
      if c = "NoSuchEntity" then []
      else [LogEntry.err ("Error deleting policy " ++ policyName)]
  match env.deleteRoleResp roleName with
  | .ok _ =>
    { trace := [AwsCall.deleteRolePolicy roleName policyName, AwsCall.deleteRole roleName]
      logs := polLogs ++ [LogEntry.info ("Deleted IAM role: " ++ roleName)]
      ret := (), raised := none }
  | .error c =>
    if c = "NoSuchEntity" then
      { trace := [AwsCall.deleteRolePolicy roleName policyName, AwsCall.deleteRole roleName]
        logs := polLogs ++ [LogEntry.info ("IAM role " ++ roleName ++ " not found (already deleted)")]
        ret := (), raised := none }
    else
      { trace := [AwsCall.deleteRolePolicy roleName policyName, AwsCall.deleteRole roleName]
        logs := polLogs ++ [LogEntry.err ("Error deleting IAM role " ++ roleName)]
        ret := (), raised := none }

/-- `delete_iam_roles_and_policies`: both fixed role/policy pairs. -/
def delete_iam_roles_and_policies (env : CleanupEnv) : Run Unit :=
  { trace := (rolesToDelete.map fun rp => (deleteRoleHandled env rp.1 rp.2).trace).flatten
    logs := (rolesToDelete.map fun rp => (deleteRoleHandled env rp.1 rp.2).logs).flatten
    ret := (), raised := none }

/-- `delete_cloudtrail`: delete the bucket-suffixed trail name;
`TrailNotFoundException` is logged informationally. -/
def delete_cloudtrail (env : CleanupEnv) (bucket : String) : Run Unit :=
  match env.deleteTrailResp (cleanupTrailName bucket) with
  | .ok _ =>
    { trace := [AwsCall.deleteTrail (cleanupTrailName bucket)]
      logs := [LogEntry.info ("Deleted CloudTrail: " ++ cleanupTrailName bucket)]
      ret := (), raised := none }
  | .error c =>
    if c = "TrailNotFoundException" then
      { trace := [AwsCall.deleteTrail (cleanupTrailName bucket)]
        logs := [LogEntry.info ("CloudTrail " ++ cleanupTrailName bucket ++ " not found (already deleted)")]
        ret := (), raised := none }
    else
      { trace := [AwsCall.deleteTrail (cleanupTrailName bucket)]
        logs := [LogEntry.err ("Error deleting CloudTrail " ++ cleanupTrailName bucket)]
        ret := (), raised := none }

/-- Current objects of a listing page, as `delete_objects` arguments
(no version id). -/
def keysToObjs (keys : List String) : List S3ObjectId :=
  keys.map fun k => { key := k, versionId := none }

/-- The `list_objects_v2` page loop of `empty_s3_bucket`: delete the
contents of each non-empty page; a `ClientError` from `delete_objects`
stops the loop and propagates. -/
def deleteObjectPagesLoop (env : CleanupEnv) (bucket : String) :
    List (List String) → List AwsCall × Except String Unit
  | [] => ([], .ok ())
  | page :: rest =>
    if page.isEmpty then deleteObjectPagesLoop env bucket rest
    else
      let objs := keysToObjs page
      match env.deleteObjectsResp objs with
      | .error c => ([AwsCall.deleteObjects bucket objs], .error c)
      | .ok _ =>
        let tr := deleteObjectPagesLoop env bucket rest
        (AwsCall.deleteObjects bucket objs :: tr.1, tr.2)

/-- Versions and delete markers of one page, as `delete_objects`
arguments (each with its version id). -/
def versionObjs (p : VersionPage) : List S3ObjectId :=
  p.versions.map (fun v => { key := v.1, versionId := some v.2 }) ++
    p.deleteMarkers.map (fun v => { key := v.1, versionId := some v.2 })

/-- The `list_object_versions` page loop of `empty_s3_bucket`. -/
def deleteVersionPagesLoop (env : CleanupEnv) (bucket : String) :
    List VersionPage → List AwsCall × Except String Unit
  | [] => ([], .ok ())
  | page :: rest =>
    let objs := versionObjs page
    if objs.isEmpty then deleteVersionPagesLoop env bucket rest
    else
      match env.deleteObjectsResp objs with
      | .error c => ([AwsCall.deleteObjects bucket objs], .error c)
      | .ok _ =>
        let tr := deleteVersionPagesLoop env bucket rest
        (AwsCall.deleteObjects bucket objs :: tr.1, tr.2)

/-- The version-deletion block of `empty_s3_bucket`, wrapped in its own
`try/except ClientError: pass`: any error is swallowed silently. -/
def versionsBlock (env : CleanupEnv) (bucket : String) : List AwsCall :=
  match env.listVersionsResp with
  | .error _ => [AwsCall.listObjectVersions bucket]
  | .ok vpages =>
    AwsCall.listObjectVersions bucket :: (deleteVersionPagesLoop env bucket vpages).1

/-- `empty_s3_bucket`: probe the bucket, delete all current objects page
by page, then all versions and delete markers; a 404 anywhere in the
outer block is logged informationally. -/
def empty_s3_bucket (env : CleanupEnv) (bucket : String) : Run Unit :=
  match env.headBucketResp bucket with
  | .error c =>
    if c = "404" then
      { trace := [AwsCall.headBucket bucket]
        logs := [LogEntry.info ("S3 bucket " ++ bucket ++ " not found (already deleted)")]
        ret := (), raised := none }
    else
      { trace := [AwsCall.headBucket bucket]
        logs := [LogEntry.err ("Error emptying S3 bucket " ++ bucket)]
        ret := (), raised := none }
  | .ok _ =>
    match (deleteObjectPagesLoop env bucket env.objectPages).2 with
    | .error c =>
      if c = "404" then
        { trace := AwsCall.headBucket bucket :: AwsCall.listObjectsV2 bucket ::
            (deleteObjectPagesLoop env bucket env.objectPages).1
          logs := [LogEntry.info ("S3 bucket " ++ bucket ++ " not found (already deleted)")]
          ret := (), raised := none }
      else
        { trace := AwsCall.headBucket bucket :: AwsCall.listObjectsV2 bucket ::
            (deleteObjectPagesLoop env bucket env.objectPages).1
          logs := [LogEntry.err ("Error emptying S3 bucket " ++ bucket)]
          ret := (), raised := none }
    | .ok _ =>
      { trace := AwsCall.headBucket bucket :: AwsCall.listObjectsV2 bucket ::
          ((deleteObjectPagesLoop env bucket env.objectPages).1 ++ versionsBlock env bucket)
        logs := [LogEntry.info ("Emptied S3 bucket " ++ bucket)]
        ret := (), raised := none }

/-- `delete_s3_bucket`: a single `delete_bucket` call; `NoSuchBucket` is
logged informationally. -/
def delete_s3_bucket (env : CleanupEnv) (bucket : String) : Run Unit :=
  match env.deleteBucketResp bucket with
  | .ok _ =>
    { trace := [AwsCall.deleteBucket bucket]
      logs := [LogEntry.info ("Deleted S3 bucket: " ++ bucket)]
      ret := (), raised := none }
  | .error c =>
    if c = "NoSuchBucket" then
      { trace := [AwsCall.deleteBucket bucket]
        logs := [LogEntry.info ("S3 bucket " ++ bucket ++ " not found (already deleted)")]
        ret := (), raised := none }
    else
      { trace := [AwsCall.deleteBucket bucket]
        logs := [LogEntry.err ("Error deleting S3 bucket " ++ bucket)]
        ret := (), raised := none }

/-- `run_cleanup`: the six teardown sections in source order. -/
def run_cleanup (env : CleanupEnv) (bucket : String) : Run Unit :=
  let s1 := delete_eventbridge_rules env
  let s2 := delete_lambda_functions env
  let s3 := delete_iam_roles_and_policies env
  let s4 := delete_cloudtrail env bucket
  let s5 := empty_s3_bucket env bucket
  let s6 := delete_s3_bucket env bucket
  { trace := s1.trace ++ s2.trace ++ s3.trace ++ s4.trace ++ s5.trace ++ s6.trace
    logs := s1.logs ++ s2.logs ++ s3.logs ++ s4.logs ++ s5.logs ++ s6.logs
    ret := (), raised := none }

/-! ## Call classifiers and ordering predicates -/

/-- Is this a `remove_targets` call for the given rule? -/
def isRemoveTargetsFor (r : String) : AwsCall → Bool
  | .removeTargets r2 _ => r2 == r
  | _ => false

/-- Is this a `delete_rule` call for the given rule? -/
def isDeleteRuleFor (r : String) : AwsCall → Bool
  | .deleteRule r2 => r2 == r
  | _ => false

/-- Is this a `delete_role_policy` call for the given role? -/
def isDeleteRolePolicyFor (r : String) : AwsCall → Bool
  | .deleteRolePolicy r2 _ => r2 == r
  | _ => false

/-- Is this a `delete_role` call for the given role? -/
def isDeleteRoleFor (r : String) : AwsCall → Bool
  | .deleteRole r2 => r2 == r
  | _ => false

/-- Is this a `delete_objects` call? -/
def isDeleteObjectsCall : AwsCall → Bool
  | .deleteObjects _ _ => true
  | _ => false

/-- Is this a `delete_bucket` call? -/
def isDeleteBucketCall : AwsCall → Bool
  | .deleteBucket _ => true
  | _ => false

/-- A `delete_objects` call deleting current objects (no version ids). -/
def isCurrentObjectDelete : AwsCall → Bool
  | .deleteObjects _ objs => !objs.isEmpty && objs.all fun o => o.versionId.isNone
  | _ => false

/-- A `delete_objects` call deleting versions or delete markers. -/
def isVersionDelete : AwsCall → Bool
  | .deleteObjects _ objs => !objs.isEmpty && objs.all fun o => o.versionId.isSome
  | _ => false

/-- Every call satisfying `p` occurs strictly before every call
satisfying `q` in the trace. -/
def precedes (tr : List AwsCall) (p q : AwsCall → Bool) : Prop :=
  ∀ i j (hi : i < tr.length) (hj : j < tr.length),
    p (tr.get ⟨i, hi⟩) = true → q (tr.get ⟨j, hj⟩) = true → i < j

/-- The trace splits into a part free of `q`-calls followed by a part
free of `p`-calls. -/
def splitOrdered (tr : List AwsCall) (p q : AwsCall → Bool) : Prop :=
  ∃ l1 l2, tr = l1 ++ l2 ∧ (∀ c ∈ l1, q c = false) ∧ (∀ c ∈ l2, p c = false)

lemma precedes_of_splitOrdered {tr : List AwsCall} {p q : AwsCall → Bool}
    (h : splitOrdered tr p q) : precedes tr p q := by
  obtain ⟨l1, l2, rfl, hq, hp⟩ := h
  intro i j hi hj hpi hqj
  have hlen := hi
  have hlenj := hj
  rw [List.length_append] at hlen hlenj
  have hil : i < l1.length := by
    by_contra hge
    push_neg at hge
    have h2 : i - l1.length < l2.length := by omega
    have heq : (l1 ++ l2).get ⟨i, hi⟩ = l2.get ⟨i - l1.length, h2⟩ := by
      simp [List.getElem_append_right hge]
    have hfalse := hp _ (List.get_mem l2 (i - l1.length) h2)
    rw [heq] at hpi
    rw [hpi] at hfalse
    exact Bool.noConfusion hfalse
  have hjr : l1.length ≤ j := by
    by_contra hlt
    push_neg at hlt
    have heq : (l1 ++ l2).get ⟨j, hj⟩ = l1.get ⟨j, hlt⟩ := by
      simp [List.getElem_append_left hlt]
    have hfalse := hq _ (List.get_mem l1 j hlt)
    rw [heq] at hqj
    rw [hqj] at hfalse
    exact Bool.noConfusion hfalse
  omega

lemma splitOrdered_of_clean_p {tr : List AwsCall} {p q : AwsCall → Bool}
    (h : ∀ c ∈ tr, p c = false) : splitOrdered tr p q :=
  ⟨[], tr, rfl, by simp, h⟩

lemma splitOrdered_of_clean_q {tr : List AwsCall} {p q : AwsCall → Bool}
    (h : ∀ c ∈ tr, q c = false) : splitOrdered tr p q :=
  ⟨tr, [], by simp, h, by simp⟩

lemma splitOrdered_append_clean_right {a b : List AwsCall} {p q : AwsCall → Bool}
    (h1 : splitOrdered a p q) (h2 : ∀ c ∈ b, p c = false) : splitOrdered (a ++ b) p q := by
  obtain ⟨l1, l2, rfl, hq, hp⟩ := h1
  refine ⟨l1, l2 ++ b, by simp, hq, ?_⟩
  intro c hc
  rcases List.mem_append.mp hc with hc | hc
  · exact hp c hc
  · exact h2 c hc

lemma splitOrdered_append_clean_left {a b : List AwsCall} {p q : AwsCall → Bool}
    (h1 : ∀ c ∈ a, q c = false) (h2 : splitOrdered b p q) : splitOrdered (a ++ b) p q := by
  obtain ⟨l1, l2, rfl, hq, hp⟩ := h2
  refine ⟨a ++ l1, l2, by simp, ?_, hp⟩
  intro c hc
  rcases List.mem_append.mp hc with hc | hc
  · exact h1 c hc
  · exact hq c hc

lemma clean_append {a b : List AwsCall} {f : AwsCall → Bool}
    (ha : ∀ c ∈ a, f c = false) (hb : ∀ c ∈ b, f c = false) :
    ∀ c ∈ a ++ b, f c = false := by
  intro c hc
  rcases List.mem_append.mp hc with hc | hc
  · exact ha c hc
  · exact hb c hc

/-! ## Trace shapes of the cleanup sections -/

lemma deleteRuleHandled_trace (env : CleanupEnv) (r2 : String) :
    (deleteRuleHandled env r2).trace = (deleteRuleBody env r2).1 := by
  unfold deleteRuleHandled
  rcases h : deleteRuleBody env r2 with ⟨tr, lg, r⟩
  cases r
  · show (if _ = _ then _ else _ : Run Unit).trace = _
    split <;> rfl
  · rfl

lemma deleteRuleBody_trace_cases (env : CleanupEnv) (r2 : String) :
    (deleteRuleBody env r2).1 = [AwsCall.listTargetsByRule r2] ∨
    (deleteRuleBody env r2).1 = [AwsCall.listTargetsByRule r2, AwsCall.deleteRule r2] ∨
    (∃ ids, (deleteRuleBody env r2).1
        = [AwsCall.listTargetsByRule r2, AwsCall.removeTargets r2 ids]) ∨
    (∃ ids, (deleteRuleBody env r2).1
        = [AwsCall.listTargetsByRule r2, AwsCall.removeTargets r2 ids, AwsCall.deleteRule r2]) := by
  unfold deleteRuleBody
  cases h1 : env.listTargetsResp r2 with
  | error c => exact Or.inl (by simp)
  | ok ids =>
    cases hids : ids.isEmpty with
    | true =>
      cases h2 : env.deleteRuleResp r2 with
      | error c => exact Or.inr (Or.inl (by simp [hids, h2]))
      | ok u => exact Or.inr (Or.inl (by simp [hids, h2]))
    | false =>
      cases h3 : env.removeTargetsResp r2 ids with
      | error c =>
        exact Or.inr (Or.inr (Or.inl ⟨ids, by simp [hids, h3]⟩))
      | ok u =>
        cases h2 : env.deleteRuleResp r2 with
        | error c =>
          exact Or.inr (Or.inr (Or.inr ⟨ids, by simp [hids, h3, h2]⟩))
        | ok u2 =>
          exact Or.inr (Or.inr (Or.inr ⟨ids, by simp [hids, h3, h2]⟩))

lemma deleteFunctionHandled_trace (env : CleanupEnv) (f : String) :
    (deleteFunctionHandled env f).trace = [AwsCall.deleteFunction f] := by
  unfold deleteFunctionHandled
  cases h : env.deleteFunctionResp f
  · show (if _ = _ then _ else _ : Run Unit).trace = _
    split <;> rfl
  · rfl

lemma delete_lambda_functions_trace (env : CleanupEnv) :
    (delete_lambda_functions env).trace
      = [AwsCall.deleteFunction "QDeveloper3PSetup",
         AwsCall.deleteFunction "IAMIdentityCenterUserExtract"] := by
  show ((functionsToDelete.map fun f => (deleteFunctionHandled env f).trace).flatten) = _
  simp [functionsToDelete, deleteFunctionHandled_trace]

lemma deleteRoleHandled_trace (env : CleanupEnv) (r p : String) :
    (deleteRoleHandled env r p).trace
      = [AwsCall.deleteRolePolicy r p, AwsCall.deleteRole r] := by
  unfold deleteRoleHandled
  cases h : env.deleteRoleResp r
  · show (if _ = _ then _ else _ : Run Unit).trace = _
    split <;> rfl
  · rfl

lemma delete_iam_roles_and_policies_trace (env : CleanupEnv) :
    (delete_iam_roles_and_policies env).trace
      = [AwsCall.deleteRolePolicy "lambda-q-developer-role" "QDeveloper3PPermissions",
         AwsCall.deleteRole "lambda-q-developer-role",
         AwsCall.deleteRolePolicy "lambda-iam-identity-center-extract-role"
           "IAMIdentityCenterExtractPermissions",
         AwsCall.deleteRole "lambda-iam-identity-center-extract-role"] := by
  show ((rolesToDelete.map fun rp => (deleteRoleHandled env rp.1 rp.2).trace).flatten) = _
  simp [rolesToDelete, deleteRoleHandled_trace]

lemma delete_cloudtrail_trace (env : CleanupEnv) (bucket : String) :
    (delete_cloudtrail env bucket).trace = [AwsCall.deleteTrail (cleanupTrailName bucket)] := by
  unfold delete_cloudtrail
  cases h : env.deleteTrailResp (cleanupTrailName bucket)
  · show (if _ = _ then _ else _ : Run Unit).trace = _
    split <;> rfl
  · rfl

lemma delete_s3_bucket_trace (env : CleanupEnv) (bucket : String) :
    (delete_s3_bucket env bucket).trace = [AwsCall.deleteBucket bucket] := by
  unfold delete_s3_bucket
  cases h : env.deleteBucketResp bucket
  · show (if _ = _ then _ else _ : Run Unit).trace = _
    split <;> rfl
  · rfl

lemma delete_eventbridge_rules_trace (env : CleanupEnv) :
    (delete_eventbridge_rules env).trace
      = (deleteRuleHandled env "QDeveloper3PSetupSchedule").trace
          ++ (deleteRuleHandled env "IAMIdentityCenterUserExtractSchedule").trace := by
  show ((rulesToDelete.map fun r => (deleteRuleHandled env r).trace).flatten) = _
  simp [rulesToDelete]

lemma deleteObjectPagesLoop_trace_mem (env : CleanupEnv) (bucket : String) :
    ∀ pages, ∀ c ∈ (deleteObjectPagesLoop env bucket pages).1,
      ∃ keys : List String, keys.isEmpty = false ∧ c = AwsCall.deleteObjects bucket (keysToObjs keys) := by
  intro pages
  induction pages with
  | nil => intro c hc; simp [deleteObjectPagesLoop] at hc
  | cons page rest ih =>
    intro c hc
    rw [deleteObjectPagesLoop] at hc
    cases hp : page.isEmpty with
    | true => rw [hp] at hc; simp at hc; exact ih c hc
    | false =>
      rw [hp] at hc
      simp only [Bool.false_eq_true, if_false] at hc
      cases hd : env.deleteObjectsResp (keysToObjs page) with
      | error c2 =>
        rw [hd] at hc
        simp at hc
        exact ⟨page, hp, hc⟩
      | ok u =>
        rw [hd] at hc
        simp at hc
        rcases hc with hc | hc
        · exact ⟨page, hp, hc⟩
        · exact ih c hc

lemma deleteVersionPagesLoop_trace_mem (env : CleanupEnv) (bucket : String) :
    ∀ vpages, ∀ c ∈ (deleteVersionPagesLoop env bucket vpages).1,
      ∃ p : VersionPage, (versionObjs p).isEmpty = false
        ∧ c = AwsCall.deleteObjects bucket (versionObjs p) := by
  intro vpages
  induction vpages with
  | nil => intro c hc; simp [deleteVersionPagesLoop] at hc
  | cons page rest ih =>
    intro c hc
    rw [deleteVersionPagesLoop] at hc
    cases hp : (versionObjs page).isEmpty with
    | true => rw [hp] at hc; simp at hc; exact ih c hc
    | false =>
      rw [hp] at hc
      simp only [Bool.false_eq_true, if_false] at hc
      cases hd : env.deleteObjectsResp (versionObjs page) with
      | error c2 =>
        rw [hd] at hc
        simp at hc
        exact ⟨page, hp, hc⟩
      | ok u =>
        rw [hd] at hc
        simp at hc
        rcases hc with hc | hc
        · exact ⟨page, hp, hc⟩
        · exact ih c hc

lemma isVersionDelete_keysToObjs (b : String) (keys : List String) :
    isVersionDelete (AwsCall.deleteObjects b (keysToObjs keys)) = false := by
  cases keys with
  | nil => rfl
  | cons k ks => simp [isVersionDelete, keysToObjs]

lemma isCurrentObjectDelete_versionObjs (b : String) (p : VersionPage) :
    isCurrentObjectDelete (AwsCall.deleteObjects b (versionObjs p)) = false := by
  cases hv : p.versions with
  | nil =>
    cases hm : p.deleteMarkers with
    | nil => simp [isCurrentObjectDelete, versionObjs, hv, hm]
    | cons a l => simp [isCurrentObjectDelete, versionObjs, hv, hm]
  | cons a l => simp [isCurrentObjectDelete, versionObjs, hv]

lemma deleteRuleHandled_mentions (env : CleanupEnv) (r2 : String) :
    ∀ c ∈ (deleteRuleHandled env r2).trace,
      c = AwsCall.listTargetsByRule r2 ∨ (∃ ids, c = AwsCall.removeTargets r2 ids)
        ∨ c = AwsCall.deleteRule r2 := by
  intro c hc
  rw [deleteRuleHandled_trace] at hc
  rcases deleteRuleBody_trace_cases env r2 with h | h | ⟨ids, h⟩ | ⟨ids, h⟩ <;>
    rw [h] at hc <;> simp at hc
  · exact Or.inl hc
  · rcases hc with hc | hc
    · exact Or.inl hc
    · exact Or.inr (Or.inr hc)
  · rcases hc with hc | hc
    · exact Or.inl hc
    · exact Or.inr (Or.inl ⟨ids, hc⟩)
  · rcases hc with hc | hc | hc
    · exact Or.inl hc
    · exact Or.inr (Or.inl ⟨ids, hc⟩)
    · exact Or.inr (Or.inr hc)

lemma delete_eventbridge_rules_trace_mem (env : CleanupEnv) :
    ∀ c ∈ (delete_eventbridge_rules env).trace,
      (∃ r, c = AwsCall.listTargetsByRule r) ∨ (∃ r ids, c = AwsCall.removeTargets r ids)
        ∨ (∃ r, c = AwsCall.deleteRule r) := by
  intro c hc
  rw [delete_eventbridge_rules_trace] at hc
  rcases List.mem_append.mp hc with hc | hc <;>
    rcases deleteRuleHandled_mentions env _ c hc with h | ⟨ids, h⟩ | h
  · exact Or.inl ⟨_, h⟩
  · exact Or.inr (Or.inl ⟨_, ids, h⟩)
  · exact Or.inr (Or.inr ⟨_, h⟩)
  · exact Or.inl ⟨_, h⟩
  · exact Or.inr (Or.inl ⟨_, ids, h⟩)
  · exact Or.inr (Or.inr ⟨_, h⟩)

lemma versionsBlock_trace_mem (env : CleanupEnv) (bucket : String) :
    ∀ c ∈ versionsBlock env bucket,
      c = AwsCall.listObjectVersions bucket
        ∨ ∃ p : VersionPage, c = AwsCall.deleteObjects bucket (versionObjs p) := by
  intro c hc
  unfold versionsBlock at hc
  cases h : env.listVersionsResp with
  | error e =>
    rw [h] at hc
    simp at hc
    exact Or.inl hc
  | ok vpages =>
    rw [h] at hc
    simp at hc
    rcases hc with hc | hc
    · exact Or.inl hc
    · obtain ⟨p, _, hceq⟩ := deleteVersionPagesLoop_trace_mem env bucket vpages c hc
      exact Or.inr ⟨p, hceq⟩

lemma empty_s3_bucket_trace_cases (env : CleanupEnv) (bucket : String) :
    (empty_s3_bucket env bucket).trace = [AwsCall.headBucket bucket] ∨
    (empty_s3_bucket env bucket).trace
      = AwsCall.headBucket bucket :: AwsCall.listObjectsV2 bucket ::
          (deleteObjectPagesLoop env bucket env.objectPages).1 ∨
    (empty_s3_bucket env bucket).trace
      = AwsCall.headBucket bucket :: AwsCall.listObjectsV2 bucket ::
          ((deleteObjectPagesLoop env bucket env.objectPages).1 ++ versionsBlock env bucket) := by
  unfold empty_s3_bucket
  cases h1 : env.headBucketResp bucket with
  | error c2 =>
    refine Or.inl ?_
    show (if _ = _ then _ else _ : Run Unit).trace = _
    split <;> rfl
  | ok u =>
    cases h2 : (deleteObjectPagesLoop env bucket env.objectPages).2 with
    | error c2 =>
      refine Or.inr (Or.inl ?_)
      show (if _ = _ then _ else _ : Run Unit).trace = _
      split <;> rfl
    | ok u2 => exact Or.inr (Or.inr rfl)

lemma empty_s3_bucket_trace_mem (env : CleanupEnv) (bucket : String) :
    ∀ c ∈ (empty_s3_bucket env bucket).trace,
      c = AwsCall.headBucket bucket ∨ c = AwsCall.listObjectsV2 bucket
        ∨ c = AwsCall.listObjectVersions bucket
        ∨ ∃ objs, c = AwsCall.deleteObjects bucket objs := by
  intro c hc
  rcases empty_s3_bucket_trace_cases env bucket with h | h | h <;> rw [h] at hc
  · simp at hc
    exact Or.inl hc
  · simp at hc
    rcases hc with hc | hc | hc
    · exact Or.inl hc
    · exact Or.inr (Or.inl hc)
    · obtain ⟨keys, _, hceq⟩ := deleteObjectPagesLoop_trace_mem env bucket env.objectPages c hc
      exact Or.inr (Or.inr (Or.inr ⟨keysToObjs keys, hceq⟩))
  · simp at hc
    rcases hc with hc | hc | hc | hc
    · exact Or.inl hc
    · exact Or.inr (Or.inl hc)
    · obtain ⟨keys, _, hceq⟩ := deleteObjectPagesLoop_trace_mem env bucket env.objectPages c hc
      exact Or.inr (Or.inr (Or.inr ⟨keysToObjs keys, hceq⟩))
    · rcases versionsBlock_trace_mem env bucket c hc with h2 | ⟨p, hceq⟩
      · exact Or.inr (Or.inr (Or.inl h2))
      · exact Or.inr (Or.inr (Or.inr ⟨versionObjs p, hceq⟩))

lemma deleteRuleHandled_splitOrdered (env : CleanupEnv) (r r2 : String) :
    splitOrdered (deleteRuleHandled env r2).trace (isRemoveTargetsFor r) (isDeleteRuleFor r) := by
  rw [deleteRuleHandled_trace]
  rcases deleteRuleBody_trace_cases env r2 with h | h | ⟨ids, h⟩ | ⟨ids, h⟩ <;> rw [h]
  · apply splitOrdered_of_clean_p
    intro c hc
    simp at hc
    subst hc
    rfl
  · apply splitOrdered_of_clean_p
    intro c hc
    simp at hc
    rcases hc with hc | hc <;> subst hc <;> rfl
  · apply splitOrdered_of_clean_q
    intro c hc
    simp at hc
    rcases hc with hc | hc <;> subst hc <;> rfl
  · refine ⟨[AwsCall.listTargetsByRule r2, AwsCall.removeTargets r2 ids],
      [AwsCall.deleteRule r2], rfl, ?_, ?_⟩
    · intro c hc
      simp at hc
      rcases hc with hc | hc <;> subst hc <;> rfl
    · intro c hc
      simp at hc
      subst hc
      rfl

lemma deleteRuleHandled_clean_of_ne (env : CleanupEnv) {r r2 : String} (hne : r2 ≠ r) :
    (∀ c ∈ (deleteRuleHandled env r2).trace, isRemoveTargetsFor r c = false) ∧
    (∀ c ∈ (deleteRuleHandled env r2).trace, isDeleteRuleFor r c = false) := by
  constructor <;> intro c hc <;>
    rcases deleteRuleHandled_mentions env r2 c hc with h | ⟨ids, h⟩ | h <;> subst h <;>
      simp [isRemoveTargetsFor, isDeleteRuleFor, hne]

lemma delete_eventbridge_rules_splitOrdered (env : CleanupEnv) (r : String) :
    splitOrdered (delete_eventbridge_rules env).trace (isRemoveTargetsFor r) (isDeleteRuleFor r) := by
  rw [delete_eventbridge_rules_trace]
  by_cases hr : "QDeveloper3PSetupSchedule" = r
  · apply splitOrdered_append_clean_right (deleteRuleHandled_splitOrdered env r _)
    have hne : "IAMIdentityCenterUserExtractSchedule" ≠ r := by
      rw [← hr]
      decide
    exact (deleteRuleHandled_clean_of_ne env hne).1
  · apply splitOrdered_append_clean_left
    · exact (deleteRuleHandled_clean_of_ne env hr).2
    · exact deleteRuleHandled_splitOrdered env r _

lemma delete_iam_splitOrdered (env : CleanupEnv) (r : String) :
    splitOrdered (delete_iam_roles_and_policies env).trace
      (isDeleteRolePolicyFor r) (isDeleteRoleFor r) := by
  rw [delete_iam_roles_and_policies_trace]
  by_cases h1 : "lambda-q-developer-role" = r
  · subst h1
    exact ⟨[AwsCall.deleteRolePolicy "lambda-q-developer-role" "QDeveloper3PPermissions"],
      [AwsCall.deleteRole "lambda-q-developer-role",
       AwsCall.deleteRolePolicy "lambda-iam-identity-center-extract-role"
         "IAMIdentityCenterExtractPermissions",
       AwsCall.deleteRole "lambda-iam-identity-center-extract-role"],
      rfl, by decide, by decide⟩
  · by_cases h2 : "lambda-iam-identity-center-extract-role" = r
    · subst h2
      exact ⟨[AwsCall.deleteRolePolicy "lambda-q-developer-role" "QDeveloper3PPermissions",
        AwsCall.deleteRole "lambda-q-developer-role",
        AwsCall.deleteRolePolicy "lambda-iam-identity-center-extract-role"
          "IAMIdentityCenterExtractPermissions"],
        [AwsCall.deleteRole "lambda-iam-identity-center-extract-role"],
        rfl, by decide, by decide⟩
    · apply splitOrdered_of_clean_p
      intro c hc
      simp at hc
      rcases hc with hc | hc | hc | hc <;> subst hc
      · exact beq_eq_false_iff_ne.mpr h1
      · rfl
      · exact beq_eq_false_iff_ne.mpr h2
      · rfl

lemma empty_s3_bucket_splitOrdered (env : CleanupEnv) (bucket : String) :
    splitOrdered (empty_s3_bucket env bucket).trace isCurrentObjectDelete isVersionDelete := by
  rcases empty_s3_bucket_trace_cases env bucket with h | h | h <;> rw [h]
  · apply splitOrdered_of_clean_q
    intro c hc
    simp at hc
    subst hc
    rfl
  · apply splitOrdered_of_clean_q
    intro c hc
    simp at hc
    rcases hc with hc | hc | hc
    · subst hc; rfl
    · subst hc; rfl
    · obtain ⟨keys, _, rfl⟩ := deleteObjectPagesLoop_trace_mem env bucket env.objectPages c hc
      exact isVersionDelete_keysToObjs bucket keys
  · refine ⟨AwsCall.headBucket bucket :: AwsCall.listObjectsV2 bucket ::
        (deleteObjectPagesLoop env bucket env.objectPages).1,
      versionsBlock env bucket, by simp, ?_, ?_⟩
    · intro c hc
      simp at hc
      rcases hc with hc | hc | hc
      · subst hc; rfl
      · subst hc; rfl
      · obtain ⟨keys, _, rfl⟩ := deleteObjectPagesLoop_trace_mem env bucket env.objectPages c hc
        exact isVersionDelete_keysToObjs bucket keys
    · intro c hc
      rcases versionsBlock_trace_mem env bucket c hc with h2 | ⟨p, rfl⟩
      · subst h2; rfl
      · exact isCurrentObjectDelete_versionObjs bucket p

/-- All object identities passed to `delete_objects` calls of a trace,
in order. -/
def objectsDeleted (tr : List AwsCall) : List S3ObjectId :=
  (tr.map fun c => match c with
    | AwsCall.deleteObjects _ objs => objs
    | _ => []).flatten

lemma objectsDeleted_append (a b : List AwsCall) :
    objectsDeleted (a ++ b) = objectsDeleted a ++ objectsDeleted b := by
  simp [objectsDeleted]

lemma deleteObjectPagesLoop_ok (env : CleanupEnv) (bucket : String)
    (hok : ∀ objs, env.deleteObjectsResp objs = .ok ()) :
    ∀ pages, (deleteObjectPagesLoop env bucket pages).2 = .ok () := by
  intro pages
  induction pages with
  | nil => rfl
  | cons page rest ih =>
    rw [deleteObjectPagesLoop]
    cases hp : page.isEmpty with
    | true => simp [ih]
    | false => simp [hok, ih]

lemma deleteObjectPagesLoop_deleted (env : CleanupEnv) (bucket : String)
    (hok : ∀ objs, env.deleteObjectsResp objs = .ok ()) :
    ∀ pages, objectsDeleted (deleteObjectPagesLoop env bucket pages).1
      = keysToObjs pages.flatten := by
  intro pages
  induction pages with
  | nil => rfl
  | cons page rest ih =>
    rw [deleteObjectPagesLoop]
    cases hp : page.isEmpty with
    | true =>
      have hpe : page = [] := by
        cases page
        · rfl
        · simp [List.isEmpty] at hp
      subst hpe
      simpa using ih
    | false =>
      simp only [Bool.false_eq_true, if_false, hok]
      show objectsDeleted (AwsCall.deleteObjects bucket (keysToObjs page)
        :: (deleteObjectPagesLoop env bucket rest).1) = _
      simp [objectsDeleted] at ih ⊢
      simp [ih, keysToObjs]

lemma deleteVersionPagesLoop_deleted (env : CleanupEnv) (bucket : String)
    (hok : ∀ objs, env.deleteObjectsResp objs = .ok ()) :
    ∀ vpages, objectsDeleted (deleteVersionPagesLoop env bucket vpages).1
      = (vpages.map versionObjs).flatten := by
  intro vpages
  induction vpages with
  | nil => rfl
  | cons page rest ih =>
    rw [deleteVersionPagesLoop]
    cases hp : (versionObjs page).isEmpty with
    | true =>
      have hpe : versionObjs page = [] := by
        cases h : versionObjs page
        · rfl
        · rw [h] at hp; simp [List.isEmpty] at hp
      simp [hpe, ih]
    | false =>
      simp only [Bool.false_eq_true, if_false, hok]
      show objectsDeleted (AwsCall.deleteObjects bucket (versionObjs page)
        :: (deleteVersionPagesLoop env bucket rest).1) = _
      simp [objectsDeleted] at ih ⊢
      simp [ih]

lemma versionsBlock_deleted (env : CleanupEnv) (bucket : String)
    (hok : ∀ objs, env.deleteObjectsResp objs = .ok ())
    (vpages : List VersionPage) (hv : env.listVersionsResp = .ok vpages) :
    objectsDeleted (versionsBlock env bucket) = (vpages.map versionObjs).flatten := by
  unfold versionsBlock
  rw [hv]
  show objectsDeleted (AwsCall.listObjectVersions bucket
    :: (deleteVersionPagesLoop env bucket vpages).1) = _
  have := deleteVersionPagesLoop_deleted env bucket hok vpages
  simp [objectsDeleted] at this ⊢
  exact this

lemma empty_s3_bucket_deleted (env : CleanupEnv) (bucket : String)
    (hhead : env.headBucketResp bucket = .ok ())
    (hok : ∀ objs, env.deleteObjectsResp objs = .ok ())
    (vpages : List VersionPage) (hv : env.listVersionsResp = .ok vpages) :
    objectsDeleted (empty_s3_bucket env bucket).trace
      = keysToObjs env.objectPages.flatten ++ (vpages.map versionObjs).flatten := by
  unfold empty_s3_bucket
  rw [hhead, deleteObjectPagesLoop_ok env bucket hok env.objectPages]
  show objectsDeleted (AwsCall.headBucket bucket :: AwsCall.listObjectsV2 bucket ::
    ((deleteObjectPagesLoop env bucket env.objectPages).1 ++ versionsBlock env bucket)) = _
  have h1 := deleteObjectPagesLoop_deleted env bucket hok env.objectPages
  have h2 := versionsBlock_deleted env bucket hok vpages hv
  simp [objectsDeleted] at h1 h2 ⊢
  simp [h1, h2]

lemma delete_eventbridge_rules_clean (env : CleanupEnv) (r : String) :
    ∀ c ∈ (delete_eventbridge_rules env).trace,
      isDeleteRolePolicyFor r c = false ∧ isDeleteRoleFor r c = false ∧
      isDeleteObjectsCall c = false ∧ isDeleteBucketCall c = false ∧
      isCurrentObjectDelete c = false ∧ isVersionDelete c = false := by
  intro c hc
  rcases delete_eventbridge_rules_trace_mem env c hc with ⟨r2, rfl⟩ | ⟨r2, ids, rfl⟩ | ⟨r2, rfl⟩ <;>
    exact ⟨rfl, rfl, rfl, rfl, rfl, rfl⟩

lemma delete_lambda_functions_clean (env : CleanupEnv) (r : String) :
    ∀ c ∈ (delete_lambda_functions env).trace,
      isRemoveTargetsFor r c = false ∧ isDeleteRuleFor r c = false ∧
      isDeleteRolePolicyFor r c = false ∧ isDeleteRoleFor r c = false ∧
      isDeleteObjectsCall c = false ∧ isDeleteBucketCall c = false ∧
      isCurrentObjectDelete c = false ∧ isVersionDelete c = false := by
  intro c hc
  rw [delete_lambda_functions_trace] at hc
  simp at hc
  rcases hc with hc | hc <;> subst hc <;> exact ⟨rfl, rfl, rfl, rfl, rfl, rfl, rfl, rfl⟩

lemma delete_iam_clean (env : CleanupEnv) (r : String) :
    ∀ c ∈ (delete_iam_roles_and_policies env).trace,
      isRemoveTargetsFor r c = false ∧ isDeleteRuleFor r c = false ∧
      isDeleteObjectsCall c = false ∧ isDeleteBucketCall c = false ∧
      isCurrentObjectDelete c = false ∧ isVersionDelete c = false := by
  intro c hc
  rw [delete_iam_roles_and_policies_trace] at hc
  simp at hc
  rcases hc with hc | hc | hc | hc <;> subst hc <;> exact ⟨rfl, rfl, rfl, rfl, rfl, rfl⟩

lemma delete_cloudtrail_clean (env : CleanupEnv) (bucket : String) (r : String) :
    ∀ c ∈ (delete_cloudtrail env bucket).trace,
      isRemoveTargetsFor r c = false ∧ isDeleteRuleFor r c = false ∧
      isDeleteRolePolicyFor r c = false ∧ isDeleteRoleFor r c = false ∧
      isDeleteObjectsCall c = false ∧ isDeleteBucketCall c = false ∧
      isCurrentObjectDelete c = false ∧ isVersionDelete c = false := by
  intro c hc
  rw [delete_cloudtrail_trace] at hc
  simp at hc
  subst hc
  exact ⟨rfl, rfl, rfl, rfl, rfl, rfl, rfl, rfl⟩

lemma empty_s3_bucket_clean (env : CleanupEnv) (bucket : String) (r : String) :
    ∀ c ∈ (empty_s3_bucket env bucket).trace,
      isRemoveTargetsFor r c = false ∧ isDeleteRuleFor r c = false ∧
      isDeleteRolePolicyFor r c = false ∧ isDeleteRoleFor r c = false ∧
      isDeleteBucketCall c = false := by
  intro c hc
  rcases empty_s3_bucket_trace_mem env bucket c hc with rfl | rfl | rfl | ⟨objs, rfl⟩ <;>
    exact ⟨rfl, rfl, rfl, rfl, rfl⟩

lemma delete_s3_bucket_clean (env : CleanupEnv) (bucket : String) (r : String) :
    ∀ c ∈ (delete_s3_bucket env bucket).trace,
      isRemoveTargetsFor r c = false ∧ isDeleteRuleFor r c = false ∧
      isDeleteRolePolicyFor r c = false ∧ isDeleteRoleFor r c = false ∧
      isDeleteObjectsCall c = false ∧
      isCurrentObjectDelete c = false ∧ isVersionDelete c = false := by
  intro c hc
  rw [delete_s3_bucket_trace] at hc
  simp at hc
  subst hc
  exact ⟨rfl, rfl, rfl, rfl, rfl, rfl, rfl⟩

lemma run_cleanup_trace (env : CleanupEnv) (bucket : String) :
    (run_cleanup env bucket).trace
      = (delete_eventbridge_rules env).trace ++
          ((delete_lambda_functions env).trace ++
            ((delete_iam_roles_and_policies env).trace ++
              ((delete_cloudtrail env bucket).trace ++
                ((empty_s3_bucket env bucket).trace ++ (delete_s3_bucket env bucket).trace)))) := by
  simp [run_cleanup]

/-- The fixed trail name the setup path creates
(the default trail_name argument of setup_cloudtrail). -/
def setupTrailName : String := "QDeveloper3PTrail"

/-- C2: the trail name deleted by the cleanup path
(`"q-developer-3p-trail-" + bucket`) differs from the fixed trail name
`"QDeveloper3PTrail"` created by the setup path, for every bucket name:
teardown can never name the trail that setup created. -/
theorem trail_names_never_match (envC : CleanupEnv) (bucket : String) :
    (delete_cloudtrail envC bucket).trace
        = [AwsCall.deleteTrail (cleanupTrailName bucket)] ∧
    cleanupTrailName bucket ≠ setupTrailName := by
  refine ⟨delete_cloudtrail_trace envC bucket, ?_⟩
  intro h
  have hlen := congrArg String.length h
  rw [cleanupTrailName, String.length_append] at hlen
  have h1 : ("q-developer-3p-trail-" : String).length = 21 := by decide
  have h2 : setupTrailName.length = 17 := by decide
  omega

/-- C3: in every teardown run, for each schedule rule every
`remove_targets` call precedes every `delete_rule` call for that rule;
for each role the inline-policy deletion precedes `delete_role`; every
`delete_objects` call precedes the `delete_bucket` call; current-object
deletions precede version/delete-marker deletions; and on a clean run
the emptying deletes exactly all listed objects, then all listed
versions and delete markers. -/
theorem run_cleanup_call_order (env : CleanupEnv) (bucket : String) :
    (∀ r, precedes (run_cleanup env bucket).trace (isRemoveTargetsFor r) (isDeleteRuleFor r)) ∧
    (∀ r, precedes (run_cleanup env bucket).trace (isDeleteRolePolicyFor r) (isDeleteRoleFor r)) ∧
    precedes (run_cleanup env bucket).trace isDeleteObjectsCall isDeleteBucketCall ∧
    precedes (run_cleanup env bucket).trace isCurrentObjectDelete isVersionDelete ∧
    (env.headBucketResp bucket = .ok () → (∀ objs, env.deleteObjectsResp objs = .ok ()) →
      ∀ vpages, env.listVersionsResp = .ok vpages →
        objectsDeleted (empty_s3_bucket env bucket).trace
          = keysToObjs env.objectPages.flatten ++ (vpages.map versionObjs).flatten) := by
  refine ⟨?_, ?_, ?_, ?_, ?_⟩
  · intro r
    apply precedes_of_splitOrdered
    rw [run_cleanup_trace]
    apply splitOrdered_append_clean_right (delete_eventbridge_rules_splitOrdered env r)
    apply clean_append (fun c hc => (delete_lambda_functions_clean env r c hc).1)
    apply clean_append (fun c hc => (delete_iam_clean env r c hc).1)
    apply clean_append (fun c hc => (delete_cloudtrail_clean env bucket r c hc).1)
    apply clean_append (fun c hc => (empty_s3_bucket_clean env bucket r c hc).1)
    exact fun c hc => (delete_s3_bucket_clean env bucket r c hc).1
  · intro r
    apply precedes_of_splitOrdered
    rw [run_cleanup_trace]
    apply splitOrdered_append_clean_left
      (fun c hc => (delete_eventbridge_rules_clean env r c hc).2.1)
    apply splitOrdered_append_clean_left
      (fun c hc => (delete_lambda_functions_clean env r c hc).2.2.2.1)
    apply splitOrdered_append_clean_right (delete_iam_splitOrdered env r)
    apply clean_append (fun c hc => (delete_cloudtrail_clean env bucket r c hc).2.2.1)
    apply clean_append (fun c hc => (empty_s3_bucket_clean env bucket r c hc).2.2.1)
    exact fun c hc => (delete_s3_bucket_clean env bucket r c hc).2.2.1
  · apply precedes_of_splitOrdered
    rw [run_cleanup_trace]
    apply splitOrdered_append_clean_left
      (fun c hc => (delete_eventbridge_rules_clean env bucket c hc).2.2.2.1)
    apply splitOrdered_append_clean_left
      (fun c hc => (delete_lambda_functions_clean env bucket c hc).2.2.2.2.2.1)
    apply splitOrdered_append_clean_left
      (fun c hc => (delete_iam_clean env bucket c hc).2.2.2.1)
    apply splitOrdered_append_clean_left
      (fun c hc => (delete_cloudtrail_clean env bucket bucket c hc).2.2.2.2.2.1)
    exact ⟨(empty_s3_bucket env bucket).trace, (delete_s3_bucket env bucket).trace, rfl,
      fun c hc => (empty_s3_bucket_clean env bucket bucket c hc).2.2.2.2,
      fun c hc => (delete_s3_bucket_clean env bucket bucket c hc).2.2.2.2.1⟩
  · apply precedes_of_splitOrdered
    rw [run_cleanup_trace]
    apply splitOrdered_append_clean_left
      (fun c hc => (delete_eventbridge_rules_clean env bucket c hc).2.2.2.2.2)
    apply splitOrdered_append_clean_left
      (fun c hc => (delete_lambda_functions_clean env bucket c hc).2.2.2.2.2.2.2)
    apply splitOrdered_append_clean_left
      (fun c hc => (delete_iam_clean env bucket c hc).2.2.2.2.2)
    apply splitOrdered_append_clean_left
      (fun c hc => (delete_cloudtrail_clean env bucket bucket c hc).2.2.2.2.2.2.2)
    apply splitOrdered_append_clean_right (empty_s3_bucket_splitOrdered env bucket)
    exact fun c hc => (delete_s3_bucket_clean env bucket bucket c hc).2.2.2.2.2.1
  · intro hhead hok vpages hv
    exact empty_s3_bucket_deleted env bucket hhead hok vpages hv

/-- C4: each teardown deletion, invoked when its resource is absent (the
provider answers 404 / NoSuchEntity / NoSuchBucket /
TrailNotFoundException / ResourceNotFoundException), raises nothing to
the caller and logs no error report. -/
theorem cleanup_absent_resource_success (env : CleanupEnv) (bucket : String) :
    (∀ r, env.listTargetsResp r = .error "ResourceNotFoundException" →
      (deleteRuleHandled env r).raised = none ∧
      ∀ l ∈ (deleteRuleHandled env r).logs, l.isErr = false) ∧
    (∀ f, env.deleteFunctionResp f = .error "ResourceNotFoundException" →
      (deleteFunctionHandled env f).raised = none ∧
      ∀ l ∈ (deleteFunctionHandled env f).logs, l.isErr = false) ∧
    (∀ r p, env.deleteRolePolicyResp r p = .error "NoSuchEntity" →
      env.deleteRoleResp r = .error "NoSuchEntity" →
      (deleteRoleHandled env r p).raised = none ∧
      ∀ l ∈ (deleteRoleHandled env r p).logs, l.isErr = false) ∧
    (env.deleteTrailResp (cleanupTrailName bucket) = .error "TrailNotFoundException" →
      (delete_cloudtrail env bucket).raised = none ∧
      ∀ l ∈ (delete_cloudtrail env bucket).logs, l.isErr = false) ∧
    (env.headBucketResp bucket = .error "404" →
      (empty_s3_bucket env bucket).raised = none ∧
      ∀ l ∈ (empty_s3_bucket env bucket).logs, l.isErr = false) ∧
    (env.deleteBucketResp bucket = .error "NoSuchBucket" →
      (delete_s3_bucket env bucket).raised = none ∧
      ∀ l ∈ (delete_s3_bucket env bucket).logs, l.isErr = false) := by
  refine ⟨?_, ?_, ?_, ?_, ?_, ?_⟩
  · intro r h
    unfold deleteRuleHandled deleteRuleBody
    rw [h]
    simp [LogEntry.isErr]
  · intro f h
    unfold deleteFunctionHandled
    rw [h]
    simp [LogEntry.isErr]
  · intro r p h1 h2
    unfold deleteRoleHandled
    rw [h1, h2]
    simp [LogEntry.isErr]
  · intro h
    unfold delete_cloudtrail
    rw [h]
    simp [LogEntry.isErr]
  · intro h
    unfold empty_s3_bucket
    rw [h]
    simp [LogEntry.isErr]
  · intro h
    unfold delete_s3_bucket
    rw [h]
    simp [LogEntry.isErr]

/-- A provider environment in which every teardown target is absent. -/
def envAbsent : CleanupEnv :=
  { listTargetsResp := fun _ => .error "ResourceNotFoundException"
    removeTargetsResp := fun _ _ => .ok ()
    deleteRuleResp := fun _ => .error "ResourceNotFoundException"
    deleteFunctionResp := fun _ => .error "ResourceNotFoundException"
    deleteRolePolicyResp := fun _ _ => .error "NoSuchEntity"
    deleteRoleResp := fun _ => .error "NoSuchEntity"
    deleteTrailResp := fun _ => .error "TrailNotFoundException"
    headBucketResp := fun _ => .error "404"
    objectPages := []
    deleteObjectsResp := fun _ => .ok ()
    listVersionsResp := .ok []
    deleteBucketResp := fun _ => .error "NoSuchBucket" }

/-- Witness for C4 at a concrete all-absent environment. -/
theorem cleanup_absent_resource_success_witness :
    ((deleteRuleHandled envAbsent "QDeveloper3PSetupSchedule").raised = none ∧
      ∀ l ∈ (deleteRuleHandled envAbsent "QDeveloper3PSetupSchedule").logs, l.isErr = false) ∧
    ((deleteFunctionHandled envAbsent "QDeveloper3PSetup").raised = none ∧
      ∀ l ∈ (deleteFunctionHandled envAbsent "QDeveloper3PSetup").logs, l.isErr = false) ∧
    ((deleteRoleHandled envAbsent "lambda-q-developer-role" "QDeveloper3PPermissions").raised
        = none ∧
      ∀ l ∈ (deleteRoleHandled envAbsent "lambda-q-developer-role"
        "QDeveloper3PPermissions").logs, l.isErr = false) ∧
    ((delete_cloudtrail envAbsent "mybucket").raised = none ∧
      ∀ l ∈ (delete_cloudtrail envAbsent "mybucket").logs, l.isErr = false) ∧
    ((empty_s3_bucket envAbsent "mybucket").raised = none ∧
      ∀ l ∈ (empty_s3_bucket envAbsent "mybucket").logs, l.isErr = false) ∧
    ((delete_s3_bucket envAbsent "mybucket").raised = none ∧
      ∀ l ∈ (delete_s3_bucket envAbsent "mybucket").logs, l.isErr = false) :=
  ⟨(cleanup_absent_resource_success envAbsent "mybucket").1 _ rfl,
   (cleanup_absent_resource_success envAbsent "mybucket").2.1 _ rfl,
   (cleanup_absent_resource_success envAbsent "mybucket").2.2.1 _ _ rfl rfl,
   (cleanup_absent_resource_success envAbsent "mybucket").2.2.2.1 rfl,
   (cleanup_absent_resource_success envAbsent "mybucket").2.2.2.2.1 rfl,
   (cleanup_absent_resource_success envAbsent "mybucket").2.2.2.2.2 rfl⟩

/-- A provider environment for a clean run over a versioned bucket. -/
def envCov : CleanupEnv :=
  { listTargetsResp := fun _ => .ok ["t1"]
    removeTargetsResp := fun _ _ => .ok ()
    deleteRuleResp := fun _ => .ok ()
    deleteFunctionResp := fun _ => .ok ()
    deleteRolePolicyResp := fun _ _ => .ok ()
    deleteRoleResp := fun _ => .ok ()
    deleteTrailResp := fun _ => .ok ()
    headBucketResp := fun _ => .ok ()
    objectPages := [["k1", "k2"], []]
    deleteObjectsResp := fun _ => .ok ()
    listVersionsResp := .ok [⟨[("k1", "v1")], [("k1", "m1")]⟩]
    deleteBucketResp := fun _ => .ok () }

/-- Witness for C3: on a concrete clean run the emptying deletes exactly
the listed objects followed by the listed versions and delete markers. -/
theorem run_cleanup_call_order_witness :
    objectsDeleted (empty_s3_bucket envCov "b").trace
      = keysToObjs envCov.objectPages.flatten
          ++ (([⟨[("k1", "v1")], [("k1", "m1")]⟩] : List VersionPage).map versionObjs).flatten :=
  (run_cleanup_call_order envCov "b").2.2.2.2 rfl (fun _ => rfl) _ rfl

/-! ## Identity Center data model and directory export -/

/-- One email attribute of a directory user. -/
structure EmailEntry where
  value : String
  primary : Bool
deriving DecidableEq

/-- The Name attribute of a directory user. -/
structure NameAttr where
  givenName : Option String
  familyName : Option String
deriving DecidableEq

/-- A directory user as returned by `list_users` (absent attributes are
none, matching the `dict.get` defaults of the source). -/
structure IdcUser where
  userId : Option String
  userName : Option String
  emails : List EmailEntry
  name : Option NameAttr
deriving DecidableEq

/-- The primary email value, or the empty string when no email is marked
primary; the source takes the first email whose Primary flag is set and
falls back to the empty string. -/
def primaryEmail (u : IdcUser) : String :=
  match u.emails.find? (fun e => e.primary) with
  | some e => e.value
  | none => ""

/-- The GivenName of the Name attribute, defaulting to the empty string. -/
def givenNameOf (u : IdcUser) : String :=
  match u.name with
  | some n => n.givenName.getD ""
  | none => ""

/-- The FamilyName of the Name attribute, defaulting to the empty string. -/
def familyNameOf (u : IdcUser) : String :=
  match u.name with
  | some n => n.familyName.getD ""
  | none => ""

/-- The fixed CSV header row. -/
def csvHeader : List String :=
  ["UserId", "Username", "Email", "GivenName", "FamilyName"]

/-- The CSV data row written for one user, in field order. -/
def userRow (u : IdcUser) : List String :=
  [u.userId.getD "", u.userName.getD "", primaryEmail u, givenNameOf u, familyNameOf u]

/-- One `list_users` response page: users plus an optional continuation
token. -/
structure ListUsersPage where
  users : List IdcUser
  nextToken : Option String
deriving DecidableEq

/-- One Identity Center instance from `list_instances`. -/
structure IdcInstance where
  instanceArn : String
  identityStoreId : String
deriving DecidableEq

/-- Provider responses seen by the directory exporters.  The environment
holds the successive `list_users` pages the provider would return. -/
structure IdcEnv where
  listInstancesResp : Except String (List IdcInstance)
  listUsersPages : List ListUsersPage
  putObjectResp : Except String Unit
  uploadFileResp : Except String Unit

/-- The `while True` pagination loop: call `list_users` with the current
token, collect the page, continue while a continuation token is present.
Returns none when the environment holds no response for a pending call
(outside the well-formed environments of the theorems). -/
def collectUsers (sid : String) : Option String → List ListUsersPage →
    Option (List AwsCall × List IdcUser)
  | _, [] => none
  | tok, p :: rest =>
    match p.nextToken with
    | none => some ([AwsCall.listUsers sid tok], p.users)
    | some t =>
      match collectUsers sid (some t) rest with
      | some pr => some (AwsCall.listUsers sid tok :: pr.1, p.users ++ pr.2)
      | none => none

/-- The structured result of `extract_users` of the extraction Lambda. -/
structure ExtractResult where
  success : Bool
  message : String
  userCount : Nat
deriving DecidableEq

/-- `IAMIdentityCenterUserExtractor.extract_users`: resolve the sole
instance, paginate users, build the CSV in memory, `put_object` it. -/
def extract_users (env : IdcEnv) (bucket outputFile : String) : Run ExtractResult :=
  match env.listInstancesResp with
  | .error _ =>
    { trace := [AwsCall.listInstances]
      logs := [LogEntry.err "Error exporting IAM Identity Center users"]
      ret := { success := false, message := "Error exporting IAM Identity Center users"
               userCount := 0 }
      raised := none }
  | .ok [] =>
    { trace := [AwsCall.listInstances]
      logs := [LogEntry.info "No IAM Identity Center instances found"]
      ret := { success := false, message := "No IAM Identity Center instances found"
               userCount := 0 }
      raised := none }
  | .ok (inst :: _) =>
    match collectUsers inst.identityStoreId none env.listUsersPages with
    | none =>
      { trace := [AwsCall.listInstances]
        logs := [LogEntry.err "Error exporting IAM Identity Center users"]
        ret := { success := false, message := "Error exporting IAM Identity Center users"
                 userCount := 0 }
        raised := none }
    | some pr =>
      match env.putObjectResp with
      | .error _ =>
        { trace := AwsCall.listInstances :: pr.1 ++
            [AwsCall.putObject bucket ("users/" ++ outputFile) (csvHeader :: pr.2.map userRow)]
          logs := [LogEntry.err "Error exporting IAM Identity Center users"]
          ret := { success := false, message := "Error exporting IAM Identity Center users"
                   userCount := 0 }
          raised := none }
      | .ok _ =>
        { trace := AwsCall.listInstances :: pr.1 ++
            [AwsCall.putObject bucket ("users/" ++ outputFile) (csvHeader :: pr.2.map userRow)]
          logs := [LogEntry.info "Exported users to S3"]
          ret := { success := true
                   message := "Successfully exported " ++ toString pr.2.length ++ " users to S3"
                   userCount := pr.2.length }
          raised := none }

/-- `QDeveloper3PSetup.export_identity_center_users` of the CLI setup
script: same pagination, CSV written to a temporary file and uploaded
with `upload_file`; an upload error is caught locally and reported as
failure. -/
def export_identity_center_users (env : IdcEnv) (bucket outputFile : String) : Run Bool :=
  match env.listInstancesResp with
  | .error _ =>
    { trace := [AwsCall.listInstances]
      logs := [LogEntry.err "Error exporting IAM Identity Center users"]
      ret := false, raised := none }
  | .ok [] =>
    { trace := [AwsCall.listInstances]
      logs := [LogEntry.info "No IAM Identity Center instances found"]
      ret := false, raised := none }
  | .ok (inst :: _) =>
    match collectUsers inst.identityStoreId none env.listUsersPages with
    | none =>
      { trace := [AwsCall.listInstances]
        logs := [LogEntry.err "Error exporting IAM Identity Center users"]
        ret := false, raised := none }
    | some pr =>
      match env.uploadFileResp with
      | .error _ =>
        { trace := AwsCall.listInstances :: pr.1 ++
            [AwsCall.uploadFile bucket ("users/" ++ outputFile)]
          logs := [LogEntry.err "Error uploading to S3"]
          ret := false, raised := none }
      | .ok _ =>
        { trace := AwsCall.listInstances :: pr.1 ++
            [AwsCall.uploadFile bucket ("users/" ++ outputFile)]
          logs := [LogEntry.info "Exported users to S3"]
          ret := true, raised := none }

/-- The names the setup Lambda module imports
(`q_developer_3p_metrics_setup_lambda.py`, lines 70 to 75): json, csv,
time, os, ClientError, boto3.  The module references `io.StringIO` in
its export step but never imports io. -/
def setupLambdaModuleImports : List String :=
  ["json", "csv", "time", "os", "ClientError", "boto3"]

/-- `QDeveloper3PSetup.export_identity_center_users` of the setup
Lambda.  After pagination the CSV step evaluates `io.StringIO()`; since
the module imports (`setupLambdaModuleImports`) do not include io, that
reference raises NameError, which the generic `except Exception`
handler converts into a False result before any upload happens. -/
def export_identity_center_users_setup_lambda (env : IdcEnv) (bucket outputFile : String) :
    Run Bool :=
  match env.listInstancesResp with
  | .error _ =>
    { trace := [AwsCall.listInstances]
      logs := [LogEntry.err "Error exporting IAM Identity Center users"]
      ret := false, raised := none }
  | .ok [] =>
    { trace := [AwsCall.listInstances]
      logs := [LogEntry.info "No IAM Identity Center instances found"]
      ret := false, raised := none }
  | .ok (inst :: _) =>
    match collectUsers inst.identityStoreId none env.listUsersPages with
    | none =>
      { trace := [AwsCall.listInstances]
        logs := [LogEntry.err "Error exporting IAM Identity Center users"]
        ret := false, raised := none }
    | some pr =>
      if setupLambdaModuleImports.contains "io" then
        match env.putObjectResp with
        | .error _ =>
          { trace := AwsCall.listInstances :: pr.1 ++
              [AwsCall.putObject bucket ("users/" ++ outputFile) (csvHeader :: pr.2.map userRow)]
            logs := [LogEntry.err "Error exporting IAM Identity Center users"]
            ret := false, raised := none }
        | .ok _ =>
          { trace := AwsCall.listInstances :: pr.1 ++
              [AwsCall.putObject bucket ("users/" ++ outputFile) (csvHeader :: pr.2.map userRow)]
            logs := [LogEntry.info "Exported users to S3"]
            ret := true, raised := none }
      else
        { trace := AwsCall.listInstances :: pr.1
          logs := [LogEntry.err "Unexpected error exporting users: name io is not defined"]
          ret := false, raised := none }

/-! ## Setup script and setup Lambda -/

/-- Provider responses seen by the setup paths. -/
structure SetupEnv where
  headBucketResp : Except String Unit
  createBucketResp : Except String Unit
  putBucketPolicyResp : Except String Unit
  describeTrailsResp : Except String (List String)
  createTrailResp : Except String Unit
  putEventSelectorsResp : Except String Unit
  startLoggingResp : Except String Unit

/-- The fixed bucket policy document of `create_s3_bucket`: Amazon Q
read/list/write on the bucket, CloudTrail ACL check, CloudTrail write
under `cloudtrail/` conditioned on the canned ACL. -/
def bucketPolicyDoc (bucket : String) : List PolicyStatement :=
  [{ sid := "AllowAmazonQAccess", effect := "Allow"
     principalService := "q.amazonaws.com"
     actions := ["s3:GetObject", "s3:ListBucket", "s3:PutObject"]
     resources := ["arn:aws:s3:::" ++ bucket, "arn:aws:s3:::" ++ bucket ++ "/*"]
     conditionAclEquals := none },
   { sid := "AWSCloudTrailAclCheck", effect := "Allow"
     principalService := "cloudtrail.amazonaws.com"
     actions := ["s3:GetBucketAcl"]
     resources := ["arn:aws:s3:::" ++ bucket]
     conditionAclEquals := none },
   { sid := "AWSCloudTrailWrite", effect := "Allow"
     principalService := "cloudtrail.amazonaws.com"
     actions := ["s3:PutObject"]
     resources := ["arn:aws:s3:::" ++ bucket ++ "/cloudtrail/*"]
     conditionAclEquals := some "bucket-owner-full-control" }]

/-- `QDeveloper3PSetup.create_s3_bucket`: probe with `head_bucket`; on a
404 create the bucket (without a location constraint for us-east-1, with
`LocationConstraint` otherwise); then apply the fixed policy.  A non-404
probe error is re-raised into the outer handler. -/
def create_s3_bucket (env : SetupEnv) (bucket region : String) : Run Bool :=
  match env.headBucketResp with
  | .ok _ =>
    match env.putBucketPolicyResp with
    | .ok _ =>
      { trace := [AwsCall.headBucket bucket,
          AwsCall.putBucketPolicy bucket (bucketPolicyDoc bucket)]
        logs := [LogEntry.info ("Bucket " ++ bucket ++ " already exists"),
          LogEntry.info ("Updated bucket policy for " ++ bucket)]
        ret := true, raised := none }
    | .error _ =>
      { trace := [AwsCall.headBucket bucket,
          AwsCall.putBucketPolicy bucket (bucketPolicyDoc bucket)]
        logs := [LogEntry.info ("Bucket " ++ bucket ++ " already exists"),
          LogEntry.err "Error creating S3 bucket"]
        ret := false, raised := none }
  | .error c =>
    if c = "404" then
      match env.createBucketResp with
      | .error _ =>
        { trace := [AwsCall.headBucket bucket,
            AwsCall.createBucket bucket (if region = "us-east-1" then none else some region)]
          logs := [LogEntry.err "Error creating S3 bucket"]
          ret := false, raised := none }
      | .ok _ =>
        match env.putBucketPolicyResp with
        | .ok _ =>
          { trace := [AwsCall.headBucket bucket,
              AwsCall.createBucket bucket (if region = "us-east-1" then none else some region),
              AwsCall.putBucketPolicy bucket (bucketPolicyDoc bucket)]
            logs := [LogEntry.info ("Created bucket: " ++ bucket),
              LogEntry.info ("Updated bucket policy for " ++ bucket)]
            ret := true, raised := none }
        | .error _ =>
          { trace := [AwsCall.headBucket bucket,
              AwsCall.createBucket bucket (if region = "us-east-1" then none else some region),
              AwsCall.putBucketPolicy bucket (bucketPolicyDoc bucket)]
            logs := [LogEntry.info ("Created bucket: " ++ bucket),
              LogEntry.err "Error creating S3 bucket"]
            ret := false, raised := none }
    else
      { trace := [AwsCall.headBucket bucket]
        logs := [LogEntry.err "Error creating S3 bucket"]
        ret := false, raised := none }

/-- The three advanced event selectors of `setup_cloudtrail`: one per
resource type, each matching Data-category events. -/
def advancedEventSelectors : List EventSelector :=
  [{ name := "Log CodeWhisperer events"
     fieldSelectors := [{ field := "eventCategory", equalsVals := ["Data"] },
       { field := "resources.type", equalsVals := ["AWS::CodeWhisperer::Profile"] }] },
   { name := "Log Q Developer Integration events"
     fieldSelectors := [{ field := "eventCategory", equalsVals := ["Data"] },
       { field := "resources.type", equalsVals := ["AWS::QDeveloper::Integration"] }] },
   { name := "Log CodeWhisperer Customization events"
     fieldSelectors := [{ field := "eventCategory", equalsVals := ["Data"] },
       { field := "resources.type", equalsVals := ["AWS::CodeWhisperer::Customization"] }] }]

/-- `QDeveloper3PSetup.setup_cloudtrail`: list trails, create the trail
only when its name is absent (multi-region, log-file validation), then
unconditionally apply the three selectors and start logging. -/
def setup_cloudtrail (env : SetupEnv) (bucket trailName : String) : Run Bool :=
  match env.describeTrailsResp with
  | .error _ =>
    { trace := [AwsCall.describeTrails]
      logs := [LogEntry.err "Error setting up CloudTrail"]
      ret := false, raised := none }
  | .ok names =>
    if trailName ∈ names then
      match env.putEventSelectorsResp with
      | .error _ =>
        { trace := [AwsCall.describeTrails,
            AwsCall.putEventSelectors trailName advancedEventSelectors]
          logs := [LogEntry.info ("CloudTrail trail " ++ trailName ++ " already exists"),
            LogEntry.err "Error setting up CloudTrail"]
          ret := false, raised := none }
      | .ok _ =>
        match env.startLoggingResp with
        | .error _ =>
          { trace := [AwsCall.describeTrails,
              AwsCall.putEventSelectors trailName advancedEventSelectors,
              AwsCall.startLogging trailName]
            logs := [LogEntry.info ("CloudTrail trail " ++ trailName ++ " already exists"),
              LogEntry.info ("Configured data events for CloudTrail trail: " ++ trailName),
              LogEntry.err "Error setting up CloudTrail"]
            ret := false, raised := none }
        | .ok _ =>
          { trace := [AwsCall.describeTrails,
              AwsCall.putEventSelectors trailName advancedEventSelectors,
              AwsCall.startLogging trailName]
            logs := [LogEntry.info ("CloudTrail trail " ++ trailName ++ " already exists"),
              LogEntry.info ("Configured data events for CloudTrail trail: " ++ trailName),
              LogEntry.info ("Started logging for CloudTrail trail: " ++ trailName)]
            ret := true, raised := none }
    else
      match env.createTrailResp with
      | .error _ =>
        { trace := [AwsCall.describeTrails,
            AwsCall.createTrail trailName bucket "cloudtrail" true true]
          logs := [LogEntry.err "Error setting up CloudTrail"]
          ret := false, raised := none }
      | .ok _ =>
        match env.putEventSelectorsResp with
        | .error _ =>
          { trace := [AwsCall.describeTrails,
              AwsCall.createTrail trailName bucket "cloudtrail" true true,
              AwsCall.putEventSelectors trailName advancedEventSelectors]
            logs := [LogEntry.info ("Created CloudTrail trail: " ++ trailName),
              LogEntry.err "Error setting up CloudTrail"]
            ret := false, raised := none }
        | .ok _ =>
          match env.startLoggingResp with
          | .error _ =>
            { trace := [AwsCall.describeTrails,
                AwsCall.createTrail trailName bucket "cloudtrail" true true,
                AwsCall.putEventSelectors trailName advancedEventSelectors,
                AwsCall.startLogging trailName]
              logs := [LogEntry.info ("Created CloudTrail trail: " ++ trailName),
                LogEntry.info ("Configured data events for CloudTrail trail: " ++ trailName),
                LogEntry.err "Error setting up CloudTrail"]
              ret := false, raised := none }
          | .ok _ =>
            { trace := [AwsCall.describeTrails,
                AwsCall.createTrail trailName bucket "cloudtrail" true true,
                AwsCall.putEventSelectors trailName advancedEventSelectors,
                AwsCall.startLogging trailName]
              logs := [LogEntry.info ("Created CloudTrail trail: " ++ trailName),
                LogEntry.info ("Configured data events for CloudTrail trail: " ++ trailName),
                LogEntry.info ("Started logging for CloudTrail trail: " ++ trailName)]
              ret := true, raised := none }

/-- `display_q_developer_instructions`: print the manual steps and block
on `input()`; always returns True. -/
def display_q_developer_instructions : Run Bool :=
  { trace := [AwsCall.manualInstructionsPause]
    logs := [LogEntry.info "MANUAL STEP: Amazon Q Developer Configuration"]
    ret := true, raised := none }

/-- `run_setup` of the CLI script: bucket, manual pause, trail, then the
optional best-effort user export whose result is ignored. -/
def run_setup_cli (env : SetupEnv) (idc : IdcEnv) (bucket region : String)
    (exportUsers : Bool) (outputFile : String) : Run Bool :=
  if (create_s3_bucket env bucket region).ret then
    if (setup_cloudtrail env bucket setupTrailName).ret then
      if exportUsers then
        { trace := (create_s3_bucket env bucket region).trace
            ++ display_q_developer_instructions.trace
            ++ (setup_cloudtrail env bucket setupTrailName).trace
            ++ (export_identity_center_users idc bucket outputFile).trace
          logs := (create_s3_bucket env bucket region).logs
            ++ display_q_developer_instructions.logs
            ++ (setup_cloudtrail env bucket setupTrailName).logs
            ++ (export_identity_center_users idc bucket outputFile).logs
            ++ [LogEntry.info "Setup completed successfully!"]
          ret := true, raised := none }
      else
        { trace := (create_s3_bucket env bucket region).trace
            ++ display_q_developer_instructions.trace
            ++ (setup_cloudtrail env bucket setupTrailName).trace
          logs := (create_s3_bucket env bucket region).logs
            ++ display_q_developer_instructions.logs
            ++ (setup_cloudtrail env bucket setupTrailName).logs
            ++ [LogEntry.info "Setup completed successfully!"]
          ret := true, raised := none }
    else
      { trace := (create_s3_bucket env bucket region).trace
          ++ display_q_developer_instructions.trace
          ++ (setup_cloudtrail env bucket setupTrailName).trace
        logs := (create_s3_bucket env bucket region).logs
          ++ display_q_developer_instructions.logs
          ++ (setup_cloudtrail env bucket setupTrailName).logs
          ++ [LogEntry.info "Failed to setup CloudTrail. Aborting setup."]
        ret := false, raised := none }
  else
    { trace := (create_s3_bucket env bucket region).trace
      logs := (create_s3_bucket env bucket region).logs
        ++ [LogEntry.info "Failed to create S3 bucket. Aborting setup."]
      ret := false, raised := none }

/-- `run_setup` of the setup Lambda: bucket, trail, then the optional
best-effort user export (no manual pause in the Lambda variant). -/
def run_setup_lambda (env : SetupEnv) (idc : IdcEnv) (bucket region : String)
    (exportUsers : Bool) (outputFile : String) : Run Bool :=
  if (create_s3_bucket env bucket region).ret then
    if (setup_cloudtrail env bucket setupTrailName).ret then
      if exportUsers then
        { trace := (create_s3_bucket env bucket region).trace
            ++ (setup_cloudtrail env bucket setupTrailName).trace
            ++ (export_identity_center_users_setup_lambda idc bucket outputFile).trace
          logs := (create_s3_bucket env bucket region).logs
            ++ (setup_cloudtrail env bucket setupTrailName).logs
            ++ (export_identity_center_users_setup_lambda idc bucket outputFile).logs
            ++ [LogEntry.info "Setup completed successfully!"]
          ret := true, raised := none }
      else
        { trace := (create_s3_bucket env bucket region).trace
            ++ (setup_cloudtrail env bucket setupTrailName).trace
          logs := (create_s3_bucket env bucket region).logs
            ++ (setup_cloudtrail env bucket setupTrailName).logs
            ++ [LogEntry.info "Setup completed successfully!"]
          ret := true, raised := none }
    else
      { trace := (create_s3_bucket env bucket region).trace
          ++ (setup_cloudtrail env bucket setupTrailName).trace
        logs := (create_s3_bucket env bucket region).logs
          ++ (setup_cloudtrail env bucket setupTrailName).logs
          ++ [LogEntry.info "Failed to setup CloudTrail. Aborting setup."]
        ret := false, raised := none }
  else
    { trace := (create_s3_bucket env bucket region).trace
      logs := (create_s3_bucket env bucket region).logs
        ++ [LogEntry.info "Failed to create S3 bucket. Aborting setup."]
      ret := false, raised := none }

/-! ## Remote-invocable handlers -/

/-- A JSON value as used in the handler response bodies. -/
inductive Jv
  | s (v : String)
  | b (v : Bool)
  | n (v : Nat)
  | null
deriving DecidableEq

/-- A handler response: status code plus JSON body fields in order. -/
structure LambdaResponse where
  statusCode : Nat
  body : List (String × Jv)
deriving DecidableEq

/-- A handler event payload; a field is none when absent (or null, which
`dict.get` also maps to the default). -/
structure LambdaEvent where
  bucketName : Option String
  region : Option String
  exportUsers : Option Bool
  outputFile : Option String
deriving DecidableEq

/-- The `if not bucket_name` check: true when the field is absent or the
empty string. -/
def bucketNameFalsy (ev : LambdaEvent) : Bool :=
  match ev.bucketName with
  | none => true
  | some s => s == ""

/-- The 400 response both handlers return for a missing bucket name. -/
def missingBucketResponse : LambdaResponse :=
  { statusCode := 400
    body := [("message", Jv.s "Missing required parameter: bucket_name")] }

/-- `lambda_handler` of the setup Lambda: validate the bucket name,
default the optional fields, run the setup, and translate the boolean
result to 200/500 with a JSON body. -/
def setup_lambda_handler (ev : LambdaEvent) (env : SetupEnv) (idc : IdcEnv) :
    LambdaResponse × List AwsCall :=
  if bucketNameFalsy ev then
    (missingBucketResponse, [])
  else
    ({ statusCode :=
        if (run_setup_lambda env idc (ev.bucketName.getD "") (ev.region.getD "us-east-1")
            (ev.exportUsers.getD false) (ev.outputFile.getD "users.csv")).ret
        then 200 else 500
       body :=
        [("message", Jv.s (if (run_setup_lambda env idc (ev.bucketName.getD "")
              (ev.region.getD "us-east-1") (ev.exportUsers.getD false)
              (ev.outputFile.getD "users.csv")).ret
            then "Setup completed successfully" else "Setup failed")),
         ("bucket_name", Jv.s (ev.bucketName.getD "")),
         ("region", Jv.s (ev.region.getD "us-east-1")),
         ("export_users", Jv.b (ev.exportUsers.getD false)),
         ("output_file", if ev.exportUsers.getD false
            then Jv.s (ev.outputFile.getD "users.csv") else Jv.null)] },
     (run_setup_lambda env idc (ev.bucketName.getD "") (ev.region.getD "us-east-1")
        (ev.exportUsers.getD false) (ev.outputFile.getD "users.csv")).trace)

/-- `lambda_handler` of the extraction Lambda: validate the bucket name,
default region and output file, run the extraction, and translate the
structured result to 200/500 with a JSON body. -/
def extract_lambda_handler (ev : LambdaEvent) (idc : IdcEnv) :
    LambdaResponse × List AwsCall :=
  if bucketNameFalsy ev then
    (missingBucketResponse, [])
  else
    ({ statusCode :=
        if (extract_users idc (ev.bucketName.getD "") (ev.outputFile.getD "users.csv")).ret.success
        then 200 else 500
       body :=
        [("message", Jv.s (extract_users idc (ev.bucketName.getD "")
            (ev.outputFile.getD "users.csv")).ret.message),
         ("bucket_name", Jv.s (ev.bucketName.getD "")),
         ("region", Jv.s (ev.region.getD "us-east-1")),
         ("output_file", Jv.s (ev.outputFile.getD "users.csv")),
         ("user_count", Jv.n (extract_users idc (ev.bucketName.getD "")
            (ev.outputFile.getD "users.csv")).ret.userCount)] },
     (extract_users idc (ev.bucketName.getD "") (ev.outputFile.getD "users.csv")).trace)

/-! ## Setup-path theorems -/

lemma create_s3_bucket_no_pause (env : SetupEnv) (bucket region : String) :
    AwsCall.manualInstructionsPause ∉ (create_s3_bucket env bucket region).trace := by
  unfold create_s3_bucket
  cases h1 : env.headBucketResp with
  | ok u => cases h2 : env.putBucketPolicyResp <;> simp
  | error c =>
    by_cases hc : c = "404"
    · simp only [hc, if_pos]
      cases h2 : env.createBucketResp with
      | error e => simp
      | ok u => cases h3 : env.putBucketPolicyResp <;> simp
    · simp [hc]

/-- C5: the CLI setup aborts on bucket failure — the whole run is
exactly the bucket step, returning failure, and the manual pause is
never reached — while the result never depends on the user-export
environment. -/
theorem run_setup_cli_abort_and_optional_export (env : SetupEnv) (idc idc2 : IdcEnv)
    (bucket region outputFile : String) (exportUsers : Bool) :
    ((create_s3_bucket env bucket region).ret = false →
      (run_setup_cli env idc bucket region exportUsers outputFile).ret = false ∧
      (run_setup_cli env idc bucket region exportUsers outputFile).trace
        = (create_s3_bucket env bucket region).trace ∧
      AwsCall.manualInstructionsPause
        ∉ (run_setup_cli env idc bucket region exportUsers outputFile).trace) ∧
    ((create_s3_bucket env bucket region).ret = true →
      (setup_cloudtrail env bucket setupTrailName).ret = true →
      (run_setup_cli env idc bucket region true outputFile).ret = true) ∧
    ((run_setup_cli env idc bucket region exportUsers outputFile).ret
      = (run_setup_cli env idc2 bucket region exportUsers outputFile).ret) := by
  refine ⟨?_, ?_, ?_⟩
  · intro h
    unfold run_setup_cli
    rw [h]
    simp
    exact create_s3_bucket_no_pause env bucket region
  · intro h1 h2
    unfold run_setup_cli
    rw [h1, h2]
    simp
  · unfold run_setup_cli
    by_cases h1 : (create_s3_bucket env bucket region).ret
    · by_cases h2 : (setup_cloudtrail env bucket setupTrailName).ret
      · by_cases h3 : exportUsers <;> simp [h1, h2, h3]
      · simp [h1, h2]
    · simp [h1]

/-- A setup environment whose bucket probe fails with an access error. -/
def envSetupFail : SetupEnv :=
  { headBucketResp := .error "403"
    createBucketResp := .ok ()
    putBucketPolicyResp := .ok ()
    describeTrailsResp := .ok []
    createTrailResp := .ok ()
    putEventSelectorsResp := .ok ()
    startLoggingResp := .ok () }

/-- A sample identity-center instance. -/
def idcInstanceOne : IdcInstance :=
  { instanceArn := "arn:aws:sso:::instance/ssoins-1", identityStoreId := "d-123" }

/-- A sample user with a primary email and full name attribute. -/
def userAlice : IdcUser :=
  { userId := some "u-1"
    userName := some "alice"
    emails := [{ value := "alice@example.com", primary := true }]
    name := some { givenName := some "Alice", familyName := some "Smith" } }

/-- A sample user with no primary email and no name attribute. -/
def userBob : IdcUser :=
  { userId := some "u-2"
    userName := some "bob"
    emails := [{ value := "bob@other.example", primary := false }]
    name := none }

/-- An identity-center environment with one instance and two pages of
one user each; the second page carries no continuation token. -/
def envIdcTwoPages : IdcEnv :=
  { listInstancesResp := .ok [idcInstanceOne]
    listUsersPages :=
      [{ users := [userAlice], nextToken := some "token123" },
       { users := [userBob], nextToken := none }]
    putObjectResp := .ok ()
    uploadFileResp := .ok () }

/-- Witness for C5: with a failing bucket probe the CLI setup returns
failure and its run is exactly the bucket step. -/
theorem run_setup_cli_abort_witness :
    (run_setup_cli envSetupFail envIdcTwoPages "b" "us-east-1" true "users.csv").ret = false ∧
    (run_setup_cli envSetupFail envIdcTwoPages "b" "us-east-1" true "users.csv").trace
      = (create_s3_bucket envSetupFail "b" "us-east-1").trace ∧
    AwsCall.manualInstructionsPause
      ∉ (run_setup_cli envSetupFail envIdcTwoPages "b" "us-east-1" true "users.csv").trace :=
  (run_setup_cli_abort_and_optional_export envSetupFail envIdcTwoPages envIdcTwoPages
    "b" "us-east-1" "users.csv" true).1 rfl

/-- C6: with the bucket absent (probe answers 404) and the provider
accepting the calls, `create_s3_bucket` creates without a location
constraint exactly for region us-east-1 and with
`LocationConstraint = region` otherwise, then applies the fixed policy
and returns success. -/
theorem create_s3_bucket_region_conditional (env : SetupEnv) (bucket region : String)
    (hhead : env.headBucketResp = .error "404")
    (hcreate : env.createBucketResp = .ok ())
    (hpolicy : env.putBucketPolicyResp = .ok ()) :
    (region = "us-east-1" →
      (create_s3_bucket env bucket region).trace
        = [AwsCall.headBucket bucket, AwsCall.createBucket bucket none,
           AwsCall.putBucketPolicy bucket (bucketPolicyDoc bucket)]) ∧
    (region ≠ "us-east-1" →
      (create_s3_bucket env bucket region).trace
        = [AwsCall.headBucket bucket, AwsCall.createBucket bucket (some region),
           AwsCall.putBucketPolicy bucket (bucketPolicyDoc bucket)]) ∧
    (create_s3_bucket env bucket region).ret = true := by
  have hres : create_s3_bucket env bucket region =
      { trace := [AwsCall.headBucket bucket,
          AwsCall.createBucket bucket (if region = "us-east-1" then none else some region),
          AwsCall.putBucketPolicy bucket (bucketPolicyDoc bucket)]
        logs := [LogEntry.info ("Created bucket: " ++ bucket),
          LogEntry.info ("Updated bucket policy for " ++ bucket)]
        ret := true, raised := none } := by
    unfold create_s3_bucket
    rw [hhead, hcreate, hpolicy]
    simp
  refine ⟨fun hr => ?_, fun hr => ?_, ?_⟩ <;> rw [hres] <;> simp [hr]

/-- A setup environment in which the bucket is absent and the trail list
is empty. -/
def envSetupAbsent : SetupEnv :=
  { headBucketResp := .error "404"
    createBucketResp := .ok ()
    putBucketPolicyResp := .ok ()
    describeTrailsResp := .ok []
    createTrailResp := .ok ()
    putEventSelectorsResp := .ok ()
    startLoggingResp := .ok () }

/-- Witness for C6 at region us-west-2. -/
theorem create_s3_bucket_region_conditional_witness :
    (create_s3_bucket envSetupAbsent "data-bucket" "us-west-2").trace
      = [AwsCall.headBucket "data-bucket",
         AwsCall.createBucket "data-bucket" (some "us-west-2"),
         AwsCall.putBucketPolicy "data-bucket" (bucketPolicyDoc "data-bucket")] ∧
    (create_s3_bucket envSetupAbsent "data-bucket" "us-west-2").ret = true :=
  ⟨(create_s3_bucket_region_conditional envSetupAbsent "data-bucket" "us-west-2"
      rfl rfl rfl).2.1 (by decide),
   (create_s3_bucket_region_conditional envSetupAbsent "data-bucket" "us-west-2"
      rfl rfl rfl).2.2⟩

/-- Is this a `create_trail` call? -/
def isCreateTrailCall : AwsCall → Bool
  | .createTrail _ _ _ _ _ => true
  | _ => false

/-- C7: on a run of `setup_cloudtrail` whose provider calls succeed,
`create_trail` is issued exactly once — with multi-region and log-file
validation enabled — when no listed trail has the fixed name, and not at
all when one does; in both cases the three advanced event selectors are
applied and `start_logging` is invoked, and the step succeeds. -/
theorem setup_cloudtrail_create_once (env : SetupEnv) (bucket : String) (names : List String)
    (hdesc : env.describeTrailsResp = .ok names)
    (hcreate : env.createTrailResp = .ok ())
    (hsel : env.putEventSelectorsResp = .ok ())
    (hlog : env.startLoggingResp = .ok ()) :
    (setupTrailName ∉ names →
      (setup_cloudtrail env bucket setupTrailName).trace.countP isCreateTrailCall = 1 ∧
      AwsCall.createTrail setupTrailName bucket "cloudtrail" true true
        ∈ (setup_cloudtrail env bucket setupTrailName).trace) ∧
    (setupTrailName ∈ names →
      (setup_cloudtrail env bucket setupTrailName).trace.countP isCreateTrailCall = 0) ∧
    AwsCall.putEventSelectors setupTrailName advancedEventSelectors
      ∈ (setup_cloudtrail env bucket setupTrailName).trace ∧
    AwsCall.startLogging setupTrailName ∈ (setup_cloudtrail env bucket setupTrailName).trace ∧
    (advancedEventSelectors.length = 3 ∧
      advancedEventSelectors.map (fun s => s.fieldSelectors.map fun f => f.equalsVals)
        = [[["Data"], ["AWS::CodeWhisperer::Profile"]],
           [["Data"], ["AWS::QDeveloper::Integration"]],
           [["Data"], ["AWS::CodeWhisperer::Customization"]]]) ∧
    (setup_cloudtrail env bucket setupTrailName).ret = true := by
  by_cases hmem : setupTrailName ∈ names
  · have hres : setup_cloudtrail env bucket setupTrailName =
        { trace := [AwsCall.describeTrails,
            AwsCall.putEventSelectors setupTrailName advancedEventSelectors,
            AwsCall.startLogging setupTrailName]
          logs := [LogEntry.info ("CloudTrail trail " ++ setupTrailName ++ " already exists"),
            LogEntry.info ("Configured data events for CloudTrail trail: " ++ setupTrailName),
            LogEntry.info ("Started logging for CloudTrail trail: " ++ setupTrailName)]
          ret := true, raised := none } := by
      unfold setup_cloudtrail
      rw [hdesc, hsel, hlog]
      simp [hmem]
    refine ⟨fun hno => absurd hmem hno, fun _ => ?_, ?_, ?_, by decide, ?_⟩ <;>
      rw [hres] <;> simp [List.countP_cons, isCreateTrailCall]
  · have hres : setup_cloudtrail env bucket setupTrailName =
        { trace := [AwsCall.describeTrails,
            AwsCall.createTrail setupTrailName bucket "cloudtrail" true true,
            AwsCall.putEventSelectors setupTrailName advancedEventSelectors,
            AwsCall.startLogging setupTrailName]
          logs := [LogEntry.info ("Created CloudTrail trail: " ++ setupTrailName),
            LogEntry.info ("Configured data events for CloudTrail trail: " ++ setupTrailName),
            LogEntry.info ("Started logging for CloudTrail trail: " ++ setupTrailName)]
          ret := true, raised := none } := by
      unfold setup_cloudtrail
      rw [hdesc, hcreate, hsel, hlog]
      simp [hmem]
    refine ⟨fun _ => ⟨?_, ?_⟩, fun hyes => absurd hyes hmem, ?_, ?_, by decide, ?_⟩ <;>
      rw [hres] <;> simp [List.countP_cons, isCreateTrailCall]

/-- Witness for C7 at a concrete environment with no existing trails. -/
theorem setup_cloudtrail_create_once_witness :
    (setup_cloudtrail envSetupAbsent "data-bucket" setupTrailName).trace.countP
        isCreateTrailCall = 1 ∧
    AwsCall.createTrail setupTrailName "data-bucket" "cloudtrail" true true
      ∈ (setup_cloudtrail envSetupAbsent "data-bucket" setupTrailName).trace ∧
    (setup_cloudtrail envSetupAbsent "data-bucket" setupTrailName).ret = true :=
  ⟨((setup_cloudtrail_create_once envSetupAbsent "data-bucket" [] rfl rfl rfl rfl).1
      (by decide)).1,
   ((setup_cloudtrail_create_once envSetupAbsent "data-bucket" [] rfl rfl rfl rfl).1
      (by decide)).2,
   (setup_cloudtrail_create_once envSetupAbsent "data-bucket" [] rfl rfl rfl rfl).2.2.2.2.2⟩

/-! ## Directory-export theorems -/

/-- A complete response sequence for the pagination loop: at least one
page, every page before the last carries a continuation token, the last
does not. -/
def wfPages : List ListUsersPage → Prop
  | [] => False
  | p :: rest =>
    match rest with
    | [] => p.nextToken = none
    | _ :: _ => (∃ t, p.nextToken = some t) ∧ wfPages rest

/-- Is this a `list_users` call? -/
def isListUsersCall : AwsCall → Bool
  | .listUsers _ _ => true
  | _ => false

lemma collectUsers_calls (sid : String) : ∀ (ps : List ListUsersPage) (tok : Option String)
    (pr : List AwsCall × List IdcUser), collectUsers sid tok ps = some pr →
    ∀ c ∈ pr.1, ∃ t, c = AwsCall.listUsers sid t := by
  intro ps
  induction ps with
  | nil =>
    intro tok pr h
    simp [collectUsers] at h
  | cons p rest ih =>
    intro tok pr h
    rw [collectUsers] at h
    cases hn : p.nextToken with
    | none =>
      rw [hn] at h
      simp at h
      intro c hc
      rw [← h] at hc
      simp at hc
      exact ⟨tok, hc⟩
    | some t =>
      rw [hn] at h
      have h2 : (match collectUsers sid (some t) rest with
          | some pr2 => some (AwsCall.listUsers sid tok :: pr2.1, p.users ++ pr2.2)
          | none => none) = some pr := h
      cases hrec : collectUsers sid (some t) rest with
      | none => rw [hrec] at h2; simp at h2
      | some pr2 =>
        rw [hrec] at h2
        simp at h2
        intro c hc
        rw [← h2] at hc
        simp at hc
        rcases hc with hc | hc
        · exact ⟨tok, hc⟩
        · exact ih (some t) pr2 hrec c hc

lemma collectUsers_complete (sid : String) : ∀ (ps : List ListUsersPage), wfPages ps →
    ∀ tok, ∃ calls, collectUsers sid tok ps = some (calls, (ps.map fun p => p.users).flatten) ∧
      calls.length = ps.length := by
  intro ps
  induction ps with
  | nil =>
    intro h
    simp [wfPages] at h
  | cons p rest ih =>
    intro h tok
    cases rest with
    | nil =>
      have hn : p.nextToken = none := h
      refine ⟨[AwsCall.listUsers sid tok], ?_, rfl⟩
      rw [collectUsers, hn]
      simp
    | cons q qrest =>
      obtain ⟨⟨t, ht⟩, hwf⟩ := h
      obtain ⟨calls, hcoll, hlen⟩ := ih hwf (some t)
      refine ⟨AwsCall.listUsers sid tok :: calls, ?_, by simp [hlen]⟩
      rw [collectUsers, ht]
      show (match collectUsers sid (some t) (q :: qrest) with
        | some pr => some (AwsCall.listUsers sid tok :: pr.1, p.users ++ pr.2)
        | none => none) = _
      rw [hcoll]
      simp

/-- C1: the extraction Lambda follows the continuation token until a
page carries none (one `list_users` call per page), and the uploaded CSV
is the fixed header row followed by exactly one data row per user summed
over all pages; each data row holds the five columns UserId, Username,
primary email (or empty), GivenName, FamilyName, in that order. -/
theorem extract_users_pagination_csv (env : IdcEnv) (bucket outputFile : String)
    (inst : IdcInstance) (restI : List IdcInstance)
    (hinst : env.listInstancesResp = .ok (inst :: restI))
    (hwf : wfPages env.listUsersPages)
    (hput : env.putObjectResp = .ok ()) :
    (extract_users env bucket outputFile).ret.success = true ∧
    (extract_users env bucket outputFile).ret.userCount
      = (env.listUsersPages.map fun p => p.users.length).sum ∧
    (extract_users env bucket outputFile).trace.countP isListUsersCall
      = env.listUsersPages.length ∧
    AwsCall.putObject bucket ("users/" ++ outputFile)
        (["UserId", "Username", "Email", "GivenName", "FamilyName"]
          :: ((env.listUsersPages.map fun p => p.users).flatten.map userRow))
      ∈ (extract_users env bucket outputFile).trace ∧
    ((env.listUsersPages.map fun p => p.users).flatten.map userRow).length
      = (env.listUsersPages.map fun p => p.users.length).sum ∧
    ∀ u ∈ (env.listUsersPages.map fun p => p.users).flatten,
      userRow u = [u.userId.getD "", u.userName.getD "", primaryEmail u,
        givenNameOf u, familyNameOf u] := by
  obtain ⟨calls, hcoll, hlen⟩ :=
    collectUsers_complete inst.identityStoreId env.listUsersPages hwf none
  have hshape := collectUsers_calls inst.identityStoreId env.listUsersPages none _ hcoll
  have husers : (env.listUsersPages.map fun p => p.users).flatten.length
      = (env.listUsersPages.map fun p => p.users.length).sum := by
    rw [List.length_flatten, List.map_map]
    rfl
  have hres : extract_users env bucket outputFile =
      { trace := AwsCall.listInstances :: calls ++
          [AwsCall.putObject bucket ("users/" ++ outputFile)
            (csvHeader :: ((env.listUsersPages.map fun p => p.users).flatten.map userRow))]
        logs := [LogEntry.info "Exported users to S3"]
        ret := { success := true
                 message := "Successfully exported "
                   ++ toString (env.listUsersPages.map fun p => p.users).flatten.length
                   ++ " users to S3"
                 userCount := (env.listUsersPages.map fun p => p.users).flatten.length }
        raised := none } := by
    unfold extract_users
    rw [hinst]
    show (match collectUsers inst.identityStoreId none env.listUsersPages with
      | none => _
      | some pr => _) = _
    rw [hcoll, hput]
  refine ⟨by rw [hres], ?_, ?_, ?_, ?_, fun u _ => rfl⟩
  · rw [hres]
    exact husers
  · rw [hres]
    have hall : calls.countP isListUsersCall = calls.length := by
      rw [List.countP_eq_length]
      intro c hc
      obtain ⟨t, rfl⟩ := hshape c hc
      rfl
    simp [List.countP_cons, List.countP_append, isListUsersCall, hall, hlen]
  · rw [hres]
    simp [csvHeader]
  · rw [husers.symm, List.length_map]

/-- Witness for C1: two pages of one user each give a successful export
with two users and two `list_users` calls. -/
theorem extract_users_pagination_csv_witness :
    (extract_users envIdcTwoPages "b" "users.csv").ret.success = true ∧
    (extract_users envIdcTwoPages "b" "users.csv").ret.userCount = 2 ∧
    (extract_users envIdcTwoPages "b" "users.csv").trace.countP isListUsersCall = 2 := by
  have h := extract_users_pagination_csv envIdcTwoPages "b" "users.csv" idcInstanceOne [] rfl
    ⟨⟨"token123", rfl⟩, rfl⟩ rfl
  refine ⟨h.1, ?_, ?_⟩
  · rw [h.2.1]
    rfl
  · rw [h.2.2.1]
    rfl

/-- Is this a `put_object` call? -/
def isPutObjectCall : AwsCall → Bool
  | .putObject _ _ _ => true
  | _ => false

lemma create_s3_bucket_trace_cases (env : SetupEnv) (bucket region : String) :
    (create_s3_bucket env bucket region).trace
        = [AwsCall.headBucket bucket, AwsCall.putBucketPolicy bucket (bucketPolicyDoc bucket)] ∨
    (create_s3_bucket env bucket region).trace
        = [AwsCall.headBucket bucket,
           AwsCall.createBucket bucket (if region = "us-east-1" then none else some region)] ∨
    (create_s3_bucket env bucket region).trace
        = [AwsCall.headBucket bucket,
           AwsCall.createBucket bucket (if region = "us-east-1" then none else some region),
           AwsCall.putBucketPolicy bucket (bucketPolicyDoc bucket)] ∨
    (create_s3_bucket env bucket region).trace = [AwsCall.headBucket bucket] := by
  unfold create_s3_bucket
  cases h1 : env.headBucketResp with
  | ok u =>
    cases h2 : env.putBucketPolicyResp with
    | ok v => exact Or.inl rfl
    | error e => exact Or.inl rfl
  | error c2 =>
    by_cases hcode : c2 = "404"
    · subst hcode
      cases h2 : env.createBucketResp with
      | error e => exact Or.inr (Or.inl rfl)
      | ok u =>
        cases h3 : env.putBucketPolicyResp with
        | ok v => exact Or.inr (Or.inr (Or.inl rfl))
        | error e => exact Or.inr (Or.inr (Or.inl rfl))
    · simp [if_neg hcode]

lemma create_s3_bucket_no_putObject (env : SetupEnv) (bucket region : String) :
    ∀ c ∈ (create_s3_bucket env bucket region).trace, isPutObjectCall c = false := by
  intro c hc
  rcases create_s3_bucket_trace_cases env bucket region with h | h | h | h <;> rw [h] at hc <;>
    simp at hc
  · rcases hc with hc | hc <;> subst hc <;> rfl
  · rcases hc with hc | hc <;> subst hc <;> rfl
  · rcases hc with hc | hc | hc <;> subst hc <;> rfl
  · subst hc; rfl

lemma setup_cloudtrail_trace_mem (env : SetupEnv) (bucket tn : String) :
    ∀ c ∈ (setup_cloudtrail env bucket tn).trace,
      c = AwsCall.describeTrails ∨
      c = AwsCall.createTrail tn bucket "cloudtrail" true true ∨
      c = AwsCall.putEventSelectors tn advancedEventSelectors ∨
      c = AwsCall.startLogging tn := by
  unfold setup_cloudtrail
  cases h1 : env.describeTrailsResp with
  | error e =>
    intro c hc
    simp at hc
    subst hc
    exact Or.inl rfl
  | ok names =>
    by_cases hmem : tn ∈ names
    · simp only [if_pos hmem]
      cases h2 : env.putEventSelectorsResp with
      | error e =>
        intro c hc
        simp at hc
        rcases hc with hc | hc <;> subst hc
        · exact Or.inl rfl
        · exact Or.inr (Or.inr (Or.inl rfl))
      | ok u =>
        cases h3 : env.startLoggingResp with
        | error e =>
          intro c hc
          simp at hc
          rcases hc with hc | hc | hc <;> subst hc
          · exact Or.inl rfl
          · exact Or.inr (Or.inr (Or.inl rfl))
          · exact Or.inr (Or.inr (Or.inr rfl))
        | ok v =>
          intro c hc
          simp at hc
          rcases hc with hc | hc | hc <;> subst hc
          · exact Or.inl rfl
          · exact Or.inr (Or.inr (Or.inl rfl))
          · exact Or.inr (Or.inr (Or.inr rfl))
    · simp only [if_neg hmem]
      cases h2 : env.createTrailResp with
      | error e =>
        intro c hc
        simp at hc
        rcases hc with hc | hc <;> subst hc
        · exact Or.inl rfl
        · exact Or.inr (Or.inl rfl)
      | ok u =>
        cases h3 : env.putEventSelectorsResp with
        | error e =>
          intro c hc
          simp at hc
          rcases hc with hc | hc | hc <;> subst hc
          · exact Or.inl rfl
          · exact Or.inr (Or.inl rfl)
          · exact Or.inr (Or.inr (Or.inl rfl))
        | ok v =>
          cases h4 : env.startLoggingResp with
          | error e =>
            intro c hc
            simp at hc
            rcases hc with hc | hc | hc | hc <;> subst hc
            · exact Or.inl rfl
            · exact Or.inr (Or.inl rfl)
            · exact Or.inr (Or.inr (Or.inl rfl))
            · exact Or.inr (Or.inr (Or.inr rfl))
          | ok w =>
            intro c hc
            simp at hc
            rcases hc with hc | hc | hc | hc <;> subst hc
            · exact Or.inl rfl
            · exact Or.inr (Or.inl rfl)
            · exact Or.inr (Or.inr (Or.inl rfl))
            · exact Or.inr (Or.inr (Or.inr rfl))

lemma setup_cloudtrail_no_putObject (env : SetupEnv) (bucket tn : String) :
    ∀ c ∈ (setup_cloudtrail env bucket tn).trace, isPutObjectCall c = false := by
  intro c hc
  rcases setup_cloudtrail_trace_mem env bucket tn c hc with h | h | h | h <;> subst h <;> rfl

lemma export_setup_lambda_behavior (idc : IdcEnv) (bucket outputFile : String) :
    (export_identity_center_users_setup_lambda idc bucket outputFile).ret = false ∧
    ∀ c ∈ (export_identity_center_users_setup_lambda idc bucket outputFile).trace,
      isPutObjectCall c = false := by
  cases h1 : idc.listInstancesResp with
  | error e =>
    have heq : export_identity_center_users_setup_lambda idc bucket outputFile
        = { trace := [AwsCall.listInstances]
            logs := [LogEntry.err "Error exporting IAM Identity Center users"]
            ret := false, raised := none } := by
      unfold export_identity_center_users_setup_lambda
      rw [h1]
    rw [heq]
    refine ⟨rfl, ?_⟩
    intro c hc
    simp at hc
    subst hc
    rfl
  | ok insts =>
    cases insts with
    | nil =>
      have heq : export_identity_center_users_setup_lambda idc bucket outputFile
          = { trace := [AwsCall.listInstances]
              logs := [LogEntry.info "No IAM Identity Center instances found"]
              ret := false, raised := none } := by
        unfold export_identity_center_users_setup_lambda
        rw [h1]
      rw [heq]
      refine ⟨rfl, ?_⟩
      intro c hc
      simp at hc
      subst hc
      rfl
    | cons inst restI =>
      cases h2 : collectUsers inst.identityStoreId none idc.listUsersPages with
      | none =>
        have heq : export_identity_center_users_setup_lambda idc bucket outputFile
            = { trace := [AwsCall.listInstances]
                logs := [LogEntry.err "Error exporting IAM Identity Center users"]
                ret := false, raised := none } := by
          unfold export_identity_center_users_setup_lambda
          rw [h1]
          show (match collectUsers inst.identityStoreId none idc.listUsersPages with
            | none => _
            | some pr => _) = _
          rw [h2]
        rw [heq]
        refine ⟨rfl, ?_⟩
        intro c hc
        simp at hc
        subst hc
        rfl
      | some pr =>
        have heq : export_identity_center_users_setup_lambda idc bucket outputFile
            = { trace := AwsCall.listInstances :: pr.1
                logs := [LogEntry.err "Unexpected error exporting users: name io is not defined"]
                ret := false, raised := none } := by
          unfold export_identity_center_users_setup_lambda
          rw [h1]
          show (match collectUsers inst.identityStoreId none idc.listUsersPages with
            | none => _
            | some pr => _) = _
          rw [h2]
          rfl
        rw [heq]
        refine ⟨rfl, ?_⟩
        intro c hc
        simp at hc
        rcases hc with hc | hc
        · subst hc
          rfl
        · obtain ⟨t, rfl⟩ :=
            collectUsers_calls inst.identityStoreId idc.listUsersPages none pr h2 c hc
          rfl

/-- C9: the setup Lambda module never imports io, so its user-export
step always fails (the generic handler turns the NameError into False)
and never issues a `put_object`; a setup-Lambda run with export enabled
still succeeds overall when bucket and trail setup succeed, without ever
uploading a user CSV. -/
theorem setup_lambda_export_io_missing :
    setupLambdaModuleImports.contains "io" = false ∧
    (∀ (idc : IdcEnv) (bucket outputFile : String),
      (export_identity_center_users_setup_lambda idc bucket outputFile).ret = false ∧
      ∀ c ∈ (export_identity_center_users_setup_lambda idc bucket outputFile).trace,
        isPutObjectCall c = false) ∧
    (∀ (env : SetupEnv) (idc : IdcEnv) (bucket region outputFile : String),
      (create_s3_bucket env bucket region).ret = true →
      (setup_cloudtrail env bucket setupTrailName).ret = true →
      (run_setup_lambda env idc bucket region true outputFile).ret = true ∧
      ∀ c ∈ (run_setup_lambda env idc bucket region true outputFile).trace,
        isPutObjectCall c = false) := by
  refine ⟨by decide, fun idc b o => export_setup_lambda_behavior idc b o, ?_⟩
  intro env idc bucket region outputFile h1 h2
  unfold run_setup_lambda
  rw [h1, h2]
  simp only [if_pos]
  refine ⟨trivial, ?_⟩
  exact clean_append
    (clean_append (create_s3_bucket_no_putObject env bucket region)
      (setup_cloudtrail_no_putObject env bucket setupTrailName))
    (export_setup_lambda_behavior idc bucket outputFile).2

/-- Witness for C9 at concrete environments: the export step fails and
the overall setup still succeeds. -/
theorem setup_lambda_export_io_missing_witness :
    (export_identity_center_users_setup_lambda envIdcTwoPages "b" "users.csv").ret = false ∧
    (run_setup_lambda envSetupAbsent envIdcTwoPages "b" "us-east-1" true "users.csv").ret
      = true :=
  ⟨(setup_lambda_export_io_missing.2.1 envIdcTwoPages "b" "users.csv").1,
   (setup_lambda_export_io_missing.2.2 envSetupAbsent envIdcTwoPages "b" "us-east-1"
      "users.csv" rfl rfl).1⟩

/-! ## Handler theorems -/

/-- C8: both handlers return 400 with the missing-parameter body when
`bucket_name` is absent; otherwise the optional fields default to
us-east-1, false and users.csv, the status code is 200 exactly when the
delegated component succeeds and 500 otherwise, and the JSON body holds
message, bucket_name and region (and the further fields the source
emits). -/
theorem lambda_handlers_contract (ev : LambdaEvent) (env : SetupEnv) (idc : IdcEnv) :
    (ev.bucketName = none →
      setup_lambda_handler ev env idc = (missingBucketResponse, []) ∧
      extract_lambda_handler ev idc = (missingBucketResponse, [])) ∧
    (∀ b, ev.bucketName = some b → b ≠ "" →
      (setup_lambda_handler ev env idc).1.statusCode
        = (if (run_setup_lambda env idc b (ev.region.getD "us-east-1")
            (ev.exportUsers.getD false) (ev.outputFile.getD "users.csv")).ret
          then 200 else 500) ∧
      (setup_lambda_handler ev env idc).1.body
        = [("message", Jv.s (if (run_setup_lambda env idc b (ev.region.getD "us-east-1")
              (ev.exportUsers.getD false) (ev.outputFile.getD "users.csv")).ret
            then "Setup completed successfully" else "Setup failed")),
           ("bucket_name", Jv.s b),
           ("region", Jv.s (ev.region.getD "us-east-1")),
           ("export_users", Jv.b (ev.exportUsers.getD false)),
           ("output_file", if ev.exportUsers.getD false
              then Jv.s (ev.outputFile.getD "users.csv") else Jv.null)]) ∧
    (∀ b, ev.bucketName = some b → b ≠ "" →
      (extract_lambda_handler ev idc).1.statusCode
        = (if (extract_users idc b (ev.outputFile.getD "users.csv")).ret.success
          then 200 else 500) ∧
      (extract_lambda_handler ev idc).1.body
        = [("message", Jv.s (extract_users idc b (ev.outputFile.getD "users.csv")).ret.message),
           ("bucket_name", Jv.s b),
           ("region", Jv.s (ev.region.getD "us-east-1")),
           ("output_file", Jv.s (ev.outputFile.getD "users.csv")),
           ("user_count",
             Jv.n (extract_users idc b (ev.outputFile.getD "users.csv")).ret.userCount)]) := by
  refine ⟨?_, ?_, ?_⟩
  · intro h
    have hf : bucketNameFalsy ev = true := by simp [bucketNameFalsy, h]
    constructor <;> simp [setup_lambda_handler, extract_lambda_handler, hf]
  · intro b hb hne
    have hf : bucketNameFalsy ev = false := by
      simp [bucketNameFalsy, hb]
      exact hne
    have hg : ev.bucketName.getD "" = b := by rw [hb]; rfl
    unfold setup_lambda_handler
    rw [hf]
    simp only [Bool.false_eq_true, if_false, hg]
    exact ⟨trivial, trivial⟩
  · intro b hb hne
    have hf : bucketNameFalsy ev = false := by
      simp [bucketNameFalsy, hb]
      exact hne
    have hg : ev.bucketName.getD "" = b := by rw [hb]; rfl
    unfold extract_lambda_handler
    rw [hf]
    simp only [Bool.false_eq_true, if_false, hg]
    exact ⟨trivial, trivial⟩

/-- The event of the handler-contract witness: only the bucket name is
supplied, every optional field is absent. -/
def evBucketOnly : LambdaEvent :=
  { bucketName := some "b", region := none, exportUsers := none, outputFile := none }

/-- Witness for C8: with only a bucket name supplied the extract handler
answers 200 with the defaulted region in the body. -/
theorem lambda_handlers_contract_witness :
    (extract_lambda_handler evBucketOnly envIdcTwoPages).1.statusCode = 200 ∧
    (extract_lambda_handler evBucketOnly envIdcTwoPages).1.body
      = [("message", Jv.s (extract_users envIdcTwoPages "b" "users.csv").ret.message),
         ("bucket_name", Jv.s "b"),
         ("region", Jv.s "us-east-1"),
         ("output_file", Jv.s "users.csv"),
         ("user_count", Jv.n (extract_users envIdcTwoPages "b" "users.csv").ret.userCount)] := by
  have h := (lambda_handlers_contract evBucketOnly envSetupAbsent envIdcTwoPages).2.2
    "b" rfl (by decide)
  refine ⟨?_, h.2⟩
  rw [h.1]
  rfl

/-- C10: a `bucket_name` present but equal to the empty string (or null,
which the event accessor maps to the same falsy check as absence) is
treated exactly like a missing field: both handlers answer 400 with the
missing-parameter message and issue no provider call. -/
theorem handlers_falsy_bucket_name (ev : LambdaEvent) (env : SetupEnv) (idc : IdcEnv)
    (h : ev.bucketName = some "" ∨ ev.bucketName = none) :
    setup_lambda_handler ev env idc = (missingBucketResponse, []) ∧
    extract_lambda_handler ev idc = (missingBucketResponse, []) := by
  have hf : bucketNameFalsy ev = true := by
    rcases h with h | h <;> simp [bucketNameFalsy, h]
  constructor <;> simp [setup_lambda_handler, extract_lambda_handler, hf]

/-- The event of the falsy-bucket witness: the bucket name is present
but empty. -/
def evEmptyBucket : LambdaEvent :=
  { bucketName := some "", region := some "eu-west-1", exportUsers := some true
    outputFile := some "o.csv" }

/-- Witness for C10 at a concrete event with an empty bucket name. -/
theorem handlers_falsy_bucket_name_witness :
    setup_lambda_handler evEmptyBucket envSetupAbsent envIdcTwoPages
        = (missingBucketResponse, []) ∧
    extract_lambda_handler evEmptyBucket envIdcTwoPages = (missingBucketResponse, []) :=
  handlers_falsy_bucket_name evEmptyBucket envSetupAbsent envIdcTwoPages (Or.inl rfl)
